import Mathlib

/-
  Verification of the Myth metaserver core against its specification.

  Shallow embedding of the relevant Python sources:
    - src/services/game_evaluator.py   (standings reconciliation, scoring)
    - src/auth/auth.py                 (IP/expiry-bound authentication tokens)
    - src/auth/auth_service.py         (token registry, password change)
    - src/services/game_coordinator.py (game lifecycle state machine)
    - src/services/room_service.py     (room membership)
    - src/services/game_search_service.py (game-search queries)

  Python ints are modelled as Int (unbounded, signed); list indices as Nat;
  dicts as association lists in insertion order; asyncio side effects
  (network notifications, store round-trips) that do not feed back into the
  state examined by a claim are dropped; `datetime.now()` becomes an explicit
  `now : Int` argument measured in minutes.
-/

set_option maxHeartbeats 1000000

/- ===================== Standings (src/services/game_evaluator.py) ===== -/

/-- One per-player entry of a standings report
(`current_standings.players[i]` in game_evaluator.py). -/
structure StandingsPlayer where
  bungie_net_player_id : Int
  team_index : Nat
  points_killed : Int
  points_lost : Int
deriving DecidableEq, Repr

/-- One per-team entry of a standings report (`current_standings.teams[t]`). -/
structure StandingsTeam where
  place : Int
deriving DecidableEq, Repr

/-- Embeds `BungieNetGameStandings` as consumed by game_evaluator.py: the fields it
reads. `players`/`teams` are `Option` because the evaluator guards them
against `None`. -/
structure BungieNetGameStandings where
  game_ended_code : Int
  version_number : Int
  number_of_players : Int
  number_of_teams : Int
  game_scoring : Nat
  players : Option (List StandingsPlayer)
  teams : Option (List StandingsTeam)
deriving DecidableEq, Repr

/-- Embeds `find_same_standings` (game_evaluator.py lines 53-78): both present and
equal on `game_ended_code`, `version_number`, `number_of_players`. -/
def find_same_standings (st1 st2 : Option BungieNetGameStandings) : Bool :=
  match st1, st2 with
  | some a, some b =>
      if a.game_ended_code ≠ b.game_ended_code then false
      else if a.version_number ≠ b.version_number then false
      else if a.number_of_players ≠ b.number_of_players then false
      else true
  | _, _ => false

/-- The loop body of `find_good_standings_for_game`: iterate the reports,
skip `None`, take the first report as candidate, return the candidate as soon
as a later report agrees with it; `none` when the iteration ends. -/
def find_good_standings_loop :
    List (Option BungieNetGameStandings) → Option BungieNetGameStandings →
    Option BungieNetGameStandings
  | [], _ => none
  | none :: rest, good => find_good_standings_loop rest good
  | some temp :: rest, good =>
      match good with
      | some g =>
          if find_same_standings (some temp) (some g) then some g
          else find_good_standings_loop rest (some g)
      | none => find_good_standings_loop rest (some temp)

/-- Embeds `find_good_standings_for_game` (game_evaluator.py lines 80-113): empty
list gives `None`; a single-player game accepts `all_standings[0]`; otherwise
run the agreement loop over the first `player_count` reports. -/
def find_good_standings_for_game (player_count : Nat)
    (all_standings : List (Option BungieNetGameStandings)) :
    Option BungieNetGameStandings :=
  match all_standings with
  | [] => none
  | first :: _ =>
      if player_count = 1 then first
      else find_good_standings_loop (all_standings.take player_count) none

/-- Specification-side agreement on standings, written from the claim:
equality of `game_ended_code`, `version` and `number_of_players`. -/
def same_standings_spec (a b : BungieNetGameStandings) : Prop :=
  a.game_ended_code = b.game_ended_code ∧
  a.version_number = b.version_number ∧
  a.number_of_players = b.number_of_players

instance (a b : BungieNetGameStandings) : Decidable (same_standings_spec a b) :=
  inferInstanceAs (Decidable (_ ∧ _ ∧ _))

/-- Specification-side choice of the authoritative standings, written from
the claim's words: among the first `player_count` reports the candidate is
the first present report; it becomes authoritative exactly when some later
present report agrees with it; with `player_count = 1` the single report is
accepted; no agreeing pair means no result. -/
def authoritative_standings_spec (player_count : Nat)
    (all_standings : List (Option BungieNetGameStandings)) :
    Option BungieNetGameStandings :=
  match all_standings with
  | [] => none
  | first :: _ =>
      if player_count = 1 then first
      else
        match ((all_standings.take player_count).filterMap id) with
        | [] => none
        | cand :: later =>
            if later.any (fun r => decide (same_standings_spec r cand)) then
              some cand
            else none

/- ===================== Authentication tokens (src/auth/auth.py) ======= -/

/-- Embeds `AUTHENTICATION_EXPIRATION_TIME = 2 * TIME_IN_DAYS` (src/auth/auth.py). -/
def AUTHENTICATION_EXPIRATION_TIME : Nat := 2 * (24 * (60 * 60 * 60))

/-- Embeds `MAXIMUM_HANDOFF_TOKEN_SIZE` (src/auth/auth.py). -/
def MAXIMUM_HANDOFF_TOKEN_SIZE : Nat := 32

/-- Little-endian 4-byte encoding used by `struct.pack_into('<III', ...)`. -/
def pack_u32 (x : Nat) : List Nat :=
  [x % 256, x / 256 % 256, x / 65536 % 256, x / 16777216 % 256]

/-- Little-endian 4-byte decode at `off`, as `struct.unpack_from('<III',...)`
reads each word. -/
def unpack_u32 (data : List Nat) (off : Nat) : Nat :=
  data.getD off 0 + 256 * data.getD (off + 1) 0 +
    65536 * data.getD (off + 2) 0 + 16777216 * data.getD (off + 3) 0

/-- Embeds `AuthenticationToken` (src/auth/auth.py): 32 raw bytes. -/
structure AuthenticationToken where
  data : List Nat
deriving DecidableEq, Repr

/-- Embeds `AuthenticationToken.generate` (src/auth/auth.py lines 152-182): pack
host ip, user id and expiration little-endian, then 20 bytes of random
padding (taken here as an argument, `os.urandom` being nondeterministic). -/
def AuthenticationToken.generate (host_address user_id expiration_time : Nat)
    (padding : List Nat) : AuthenticationToken :=
  ⟨pack_u32 host_address ++ pack_u32 user_id ++ pack_u32 expiration_time ++
    padding⟩

/-- Embeds `AuthenticationToken.authenticate` (src/auth/auth.py lines 193-224):
reject on embedded-IP mismatch, reject when `current_time > expiration`,
otherwise succeed with the embedded user id. -/
def AuthenticationToken.authenticate (t : AuthenticationToken)
    (client_address current_time : Nat) : Bool × Option Nat :=
  let token_address := unpack_u32 t.data 0
  let user_id := unpack_u32 t.data 4
  let expiration := unpack_u32 t.data 8
  if token_address ≠ client_address then (false, none)
  else if current_time > expiration then (false, none)
  else (true, some user_id)

/- ============ Game coordinator (src/services/game_coordinator.py) ===== -/

/-- Embeds `GameState` (src/interfaces/game_coordinator_interface.py). -/
inductive GameState where
  | INITIALIZING
  | WAITING
  | STARTING
  | IN_PROGRESS
  | ENDING
  | COMPLETED
  | ABORTED
deriving DecidableEq, Repr

/-- Embeds `PlayerStatus` (src/interfaces/game_coordinator_interface.py), with
`datetime` fields as minutes (`joined_at` dropped: never read). -/
structure PlayerStatus where
  user_id : Nat
  ready : Bool := false
  connected : Bool := true
  team : Option Int := none
  last_active : Int := 0
deriving DecidableEq, Repr

/-- Embeds `GameStatus` (src/interfaces/game_coordinator_interface.py), with
`datetime` fields as minutes. -/
structure GameStatus where
  game_id : Nat
  state : GameState
  map_name : String
  player_count : Nat
  max_players : Nat
  team_game : Bool
  start_time : Option Int := none
  end_time : Option Int := none
deriving DecidableEq, Repr

/-- One game's slice of the coordinator: its `GameStatus` together with its
`user_id -> PlayerStatus` dict (an insertion-ordered association list). An
absent game (`game_id not in self.games`) is `none` at the use sites. -/
structure GameEntry where
  status : GameStatus
  players : List (Nat × PlayerStatus)
deriving DecidableEq, Repr

/-- Embeds `team_counts[status.team] = team_counts.get(status.team, 0) + 1`:
increment a key of the counting dict, keys kept in insertion order. -/
def team_counts_incr (counts : List (Int × Nat)) (t : Int) :
    List (Int × Nat) :=
  match counts.lookup t with
  | some n => counts.map (fun c => if c.1 = t then (c.1, n + 1) else c)
  | none => counts ++ [(t, 1)]

/-- The team loop of `check_game_ready`: walk the players, fail on the first
unassigned team, otherwise build the per-team player counts. -/
def team_counts_loop :
    List (Nat × PlayerStatus) → List (Int × Nat) → Option (List (Int × Nat))
  | [], counts => some counts
  | p :: rest, counts =>
      match p.2.team with
      | none => none
      | some t => team_counts_loop rest (team_counts_incr counts t)

/-- Embeds `check_game_ready` (game_coordinator.py lines 223-251): game present and
`WAITING`, at least one player, every player ready, and for a team game every
player assigned with `len(set(team_counts.values())) <= 1`. -/
def check_game_ready (g : Option GameEntry) : Bool × Option String :=
  match g with
  | none => (false, some "Game not found")
  | some e =>
      if e.status.state ≠ GameState.WAITING then
        (false, some "Game in wrong state")
      else if e.players = [] then (false, some "No players in game")
      else
        match e.players.find? (fun p => !p.2.ready) with
        | some _ => (false, some "Player not ready")
        | none =>
            if e.status.team_game then
              match team_counts_loop e.players [] with
              | none => (false, some "Player not assigned to team")
              | some counts =>
                  if (counts.map Prod.snd).dedup.length > 1 then
                    (false, some "Teams not balanced")
                  else (true, none)
            else (true, none)

/-- Embeds `start_game` (game_coordinator.py lines 142-168): present, `WAITING` and
ready, else rejected with no state change; on success the state becomes
`IN_PROGRESS` and `start_time` is stamped. -/
def start_game (g : Option GameEntry) (now : Int) : Option GameEntry × Bool :=
  match g with
  | none => (none, false)
  | some e =>
      if e.status.state ≠ GameState.WAITING then (some e, false)
      else if (check_game_ready (some e)).1 then
        (some { e with
                 status := { e.status with
                              state := GameState.IN_PROGRESS,
                              start_time := some now } }, true)
      else (some e, false)

/-- Embeds `end_game` (game_coordinator.py lines 170-197): from `IN_PROGRESS` or
`ENDING` the game is marked `COMPLETED`, players are notified, and the entry
is deleted. The middle component is the return value; the last component
records the entry as written before the deletion (`game.state = COMPLETED`),
`none` when the call was rejected. -/
def end_game (g : Option GameEntry) (now : Int) :
    Option GameEntry × Bool × Option GameEntry :=
  match g with
  | none => (none, false, none)
  | some e =>
      if e.status.state = GameState.IN_PROGRESS ∨
          e.status.state = GameState.ENDING then
        let ended := { e with
                        status := { e.status with
                                     state := GameState.COMPLETED,
                                     end_time := some now } }
        (none, true, some ended)
      else (some e, false, none)

/-- Embeds `add_player` (game_coordinator.py lines 69-96): game present and in
`INITIALIZING`/`WAITING`, not at capacity; an already-present user returns
`True` with nothing changed; otherwise append a fresh `PlayerStatus` (team
kept only for team games), refresh `player_count`, and promote
`INITIALIZING` to `WAITING`. -/
def add_player (g : Option GameEntry) (user_id : Nat) (team : Option Int)
    (now : Int) : Option GameEntry × Bool :=
  match g with
  | none => (none, false)
  | some e =>
      if e.status.state = GameState.INITIALIZING ∨
          e.status.state = GameState.WAITING then
        if e.status.player_count ≥ e.status.max_players then (some e, false)
        else if (e.players.lookup user_id).isSome then (some e, true)
        else
          let st : PlayerStatus :=
            { user_id := user_id,
              team := if e.status.team_game then team else none,
              last_active := now }
          let players := e.players ++ [(user_id, st)]
          let newState :=
            if e.status.state = GameState.INITIALIZING then GameState.WAITING
            else e.status.state
          (some { status := { e.status with
                               player_count := players.length,
                               state := newState },
                  players := players }, true)
      else (some e, false)

/-- Embeds `remove_player` (game_coordinator.py lines 98-111): drop the user, refresh
`player_count`, and `end_game` when the roster became empty (its result is
discarded). Last component as in `end_game`. -/
def remove_player (g : Option GameEntry) (user_id : Nat) (now : Int) :
    Option GameEntry × Bool × Option GameEntry :=
  match g with
  | none => (none, false, none)
  | some e =>
      if (e.players.lookup user_id).isSome then
        let players := e.players.filter (fun p => p.1 ≠ user_id)
        let e1 := { e with
                     players := players,
                     status := { e.status with
                                  player_count := players.length } }
        if players = [] then
          let r := end_game (some e1) now
          (r.1, true, r.2.2)
        else (some e1, true, none)
      else (some e, false, none)

/-- Embeds `self.players[game_id][user_id].ready = ready`: the roster update inside
`set_player_ready`. -/
def mark_player_ready (e : GameEntry) (user_id : Nat) (ready : Bool) :
    GameEntry :=
  { e with
     players := e.players.map (fun p =>
       if p.1 = user_id then (p.1, { p.2 with ready := ready }) else p) }

/-- Embeds `set_player_ready` (game_coordinator.py lines 113-127): set the flag;
when setting ready, run `check_game_ready` and auto-`start_game` on success. -/
def set_player_ready (g : Option GameEntry) (user_id : Nat) (ready : Bool)
    (now : Int) : Option GameEntry × Bool :=
  match g with
  | none => (none, false)
  | some e =>
      if (e.players.lookup user_id).isSome then
        let e1 := mark_player_ready e user_id ready
        if ready then
          if (check_game_ready (some e1)).1 then
            ((start_game (some e1) now).1, true)
          else (some e1, true)
        else (some e1, true)
      else (some e, false)

/-- Embeds `set_player_team` (game_coordinator.py lines 129-140): member of a team
game gets the team recorded. -/
def set_player_team (g : Option GameEntry) (user_id : Nat) (team : Int) :
    Option GameEntry × Bool :=
  match g with
  | none => (none, false)
  | some e =>
      if (e.players.lookup user_id).isSome then
        if e.status.team_game then
          (some { e with
                   players := e.players.map (fun p =>
                     if p.1 = user_id then (p.1, { p.2 with team := some team })
                     else p) }, true)
        else (some e, false)
      else (some e, false)

/-- Embeds `update_player_activity` (game_coordinator.py lines 215-221). -/
def update_player_activity (g : Option GameEntry) (user_id : Nat)
    (now : Int) : Option GameEntry × Bool :=
  match g with
  | none => (none, false)
  | some e =>
      if (e.players.lookup user_id).isSome then
        (some { e with
                 players := e.players.map (fun p =>
                   if p.1 = user_id then
                     (p.1, { p.2 with last_active := now })
                   else p) }, true)
      else (some e, false)

/-- One game's step of `_cleanup_loop` (game_coordinator.py lines 253-289):
an `IN_PROGRESS` game whose players were all inactive for at least 30 minutes
is ended via `end_game`; a `COMPLETED`/`ABORTED` entry older than 5 minutes
is dropped. Second component as in `end_game`. -/
def cleanup_game (g : Option GameEntry) (now : Int) :
    Option GameEntry × Option GameEntry :=
  match g with
  | none => (none, none)
  | some e =>
      if e.status.state = GameState.IN_PROGRESS then
        if e.players.all (fun p => !(now - p.2.last_active < 30 : Bool)) then
          let r := end_game (some e) now
          (r.1, r.2.2)
        else (some e, none)
      else if e.status.state = GameState.COMPLETED ∨
          e.status.state = GameState.ABORTED then
        match e.status.end_time with
        | some et => if now - et > 5 then (none, none) else (some e, none)
        | none => (some e, none)
      else (some e, none)

/-- The coordinator operations a game entry can undergo, for the transition
claims; each constructor names the method of game_coordinator.py. -/
inductive CoordOp where
  | addPlayer (user_id : Nat) (team : Option Int) (now : Int)
  | removePlayer (user_id : Nat) (now : Int)
  | setReady (user_id : Nat) (ready : Bool) (now : Int)
  | setTeam (user_id : Nat) (team : Int)
  | startOp (now : Int)
  | endOp (now : Int)
  | updateActivity (user_id : Nat) (now : Int)
  | cleanup (now : Int)
deriving DecidableEq, Repr

/-- Apply one coordinator operation; second component records the entry
written by `end_game` before deletion when the operation ended the game. -/
def apply_coord_op (op : CoordOp) (g : Option GameEntry) :
    Option GameEntry × Option GameEntry :=
  match op with
  | .addPlayer uid team now => ((add_player g uid team now).1, none)
  | .removePlayer uid now =>
      let r := remove_player g uid now
      (r.1, r.2.2)
  | .setReady uid ready now => ((set_player_ready g uid ready now).1, none)
  | .setTeam uid team => ((set_player_team g uid team).1, none)
  | .startOp now => ((start_game g now).1, none)
  | .endOp now =>
      let r := end_game g now
      (r.1, r.2.2)
  | .updateActivity uid now => ((update_player_activity g uid now).1, none)
  | .cleanup now => cleanup_game g now

/- ============ Room service (src/services/room_service.py) ============= -/

/-- Embeds `RoomState` (src/interfaces/room_interface.py). -/
inductive RoomState where
  | WAITING
  | STARTING
  | IN_GAME
  | ROOM_ENDING
  | CLOSED
deriving DecidableEq, Repr

/-- Embeds `RoomSettings` (src/interfaces/room_interface.py). -/
structure RoomSettings where
  name : String
  max_players : Nat
  password : Option String := none
  map_name : Option String := none
  game_type : Option String := none
  team_game : Bool := false
  allow_spectators : Bool := true
deriving DecidableEq, Repr

/-- Embeds `RoomInfo` (src/interfaces/room_interface.py), `created_at` dropped
(never read by the operations under study). -/
structure RoomInfo where
  room_id : Nat
  settings : RoomSettings
  host_id : Nat
  state : RoomState
  player_count : Nat
  spectator_count : Nat
  game_id : Option Nat := none
deriving DecidableEq, Repr

/-- Embeds `Room` (room_service.py): info plus the member and spectator sets,
modelled as duplicate-free lists. -/
structure Room where
  info : RoomInfo
  players : List Nat := []
  spectators : List Nat := []
  password : Option String := none
deriving DecidableEq, Repr

/-- The player path of `join_room` (room_service.py lines 98-107): not at
`max_players` unless already a member (which succeeds with nothing
changed); otherwise the user is appended and `player_count` refreshed. -/
def join_room_player_path (room : Room) (user_id : Nat) : Room × Bool :=
  if room.players.length ≥ room.info.settings.max_players then (room, false)
  else if user_id ∈ room.players then (room, true)
  else
    let players := room.players ++ [user_id]
    ({ room with
        players := players,
        info := { room.info with player_count := players.length } }, true)

/-- The spectator path of `join_room` (room_service.py lines 109-118). -/
def join_room_spectator_path (room : Room) (user_id : Nat) : Room × Bool :=
  if room.info.settings.allow_spectators = false then (room, false)
  else if user_id ∈ room.spectators then (room, true)
  else
    let spectators := room.spectators ++ [user_id]
    ({ room with
        spectators := spectators,
        info := { room.info with
                   spectator_count := spectators.length } }, true)

/-- The body of `join_room` (room_service.py lines 85-122) on the addressed
room: state must be `WAITING` or `STARTING`; a set, non-empty password must
be matched (`if room.password and password != room.password`, where an empty
string is falsy); then the player or spectator path. -/
def join_room_one (room : Room) (user_id : Nat) (password : Option String)
    (as_spectator : Bool) : Room × Bool :=
  if room.info.state ≠ RoomState.WAITING ∧
      room.info.state ≠ RoomState.STARTING then (room, false)
  else
    match room.password with
    | some p =>
        if p ≠ "" ∧ password ≠ some p then (room, false)
        else if as_spectator = false then join_room_player_path room user_id
        else join_room_spectator_path room user_id
    | none =>
        if as_spectator = false then join_room_player_path room user_id
        else join_room_spectator_path room user_id

/-- Embeds `join_room` on the room table `self.rooms`: a missing room id fails;
otherwise the addressed room is updated in place. -/
def join_room (rooms : List (Nat × Room)) (room_id user_id : Nat)
    (password : Option String) (as_spectator : Bool) :
    List (Nat × Room) × Bool :=
  match rooms.lookup room_id with
  | none => (rooms, false)
  | some room =>
      let r := join_room_one room user_id password as_spectator
      (rooms.map (fun p => if p.1 = room_id then (p.1, r.1) else p), r.2)

/- ============ Auth service (src/auth/auth_service.py) ================= -/

/-- Embeds `EncryptionType` (src/auth/auth.py). -/
inductive EncryptionType where
  | PLAINTEXT
  | SIMPLE
  | MD5
  | BCRYPT
  | ARGON2
deriving DecidableEq, Repr

/-- Embeds `AuthToken` (src/interfaces/auth_interface.py) as stored in
`AuthService.active_tokens`; datetimes as minutes. -/
structure AuthToken where
  token : String
  user_id : Nat
  created_at : Int
  expires_at : Int
deriving DecidableEq, Repr

/-- The user-store slice touched by `change_password`: the stored hash and
salt of a `BungieNetPlayerDatum`. -/
structure StoredUser where
  password : String
  salt : List Nat
deriving DecidableEq, Repr

/-- Embeds `AuthService.invalidate_token` (auth_service.py lines 90-95 of the token
dict): delete the entry when present. -/
def invalidate_token (m : List (String × AuthToken)) (tok : String) :
    List (String × AuthToken) × Bool :=
  match m.lookup tok with
  | some _ => (m.eraseP (fun q => q.1 = tok), true)
  | none => (m, false)

/-- Embeds `AuthService.validate_token` (auth_service.py lines 77-95): unknown token
fails; an expired token is dropped and fails; otherwise the bound user id. -/
def validate_token (m : List (String × AuthToken)) (now : Int)
    (tok : String) : List (String × AuthToken) × Bool × Option Nat :=
  match m.lookup tok with
  | none => (m, false, none)
  | some a =>
      if now > a.expires_at then ((invalidate_token m tok).1, false, none)
      else (m, true, some a.user_id)

/-- The revocation loop of `change_password`: iterate over a snapshot of
`active_tokens.items()` and `invalidate_token` every token of the user. -/
def revoke_user_tokens :
    List (String × AuthToken) → List (String × AuthToken) → Nat →
    List (String × AuthToken)
  | [], current, _ => current
  | (ts, t) :: rest, current, uid =>
      if t.user_id = uid then
        revoke_user_tokens rest (invalidate_token current ts).1 uid
      else revoke_user_tokens rest current uid

/-- Embeds `AuthService.change_password` (auth_service.py lines 97-122), with the
crypto primitives (`encrypt_password`, `passwords_match`) and the random
salt passed in: verify the old password, store
`encrypt_password(new_password, new_salt, BCRYPT)` with the fresh salt, then
revoke every token of the user. Returns the updated user store, the updated
token dict and the success flag. -/
def change_password
    (encrypt : String → List Nat → EncryptionType → String)
    (pw_match : String → String → List Nat → Bool)
    (users : List (Nat × StoredUser)) (tokens : List (String × AuthToken))
    (user_id : Nat) (old_password new_password : String)
    (new_salt : List Nat) :
    List (Nat × StoredUser) × List (String × AuthToken) × Bool :=
  match users.lookup user_id with
  | none => (users, tokens, false)
  | some u =>
      if pw_match old_password u.password u.salt then
        let new_hash := encrypt new_password new_salt EncryptionType.BCRYPT
        let users' := users.map (fun p =>
          if p.1 = user_id then
            (p.1, { password := new_hash, salt := new_salt })
          else p)
        (users', revoke_user_tokens tokens tokens user_id, true)
      else (users, tokens, false)

/- ============ Game evaluation (src/services/game_evaluator.py) ======== -/

/-- Embeds `RANKED_NORMAL` (game_evaluator.py). -/
def RANKED_NORMAL : Int := 1

/-- Embeds `UNRANKED_NORMAL` (game_evaluator.py). -/
def UNRANKED_NORMAL : Int := 2

/-- Embeds `BungieNetPlayerScoreDatum` (src/models/bungie_net_player.py). -/
structure BungieNetPlayerScoreDatum where
  games_played : Int := 0
  wins : Int := 0
  losses : Int := 0
  ties : Int := 0
  damage_inflicted : Int := 0
  damage_received : Int := 0
  disconnects : Int := 0
  points : Int := 0
  rank : Int := 0
  highest_points : Int := 0
  highest_rank : Int := 0
  numerical_rank : Int := 0
deriving DecidableEq, Repr

/-- The slice of `BungieNetPlayerDatum` (src/models/bungie_net_player.py)
read and written by `bungie_net_game_evaluate`. -/
structure BungieNetPlayerDatum where
  player_id : Int
  ranked_score : BungieNetPlayerScoreDatum := {}
  ranked_scores_by_game_type : List BungieNetPlayerScoreDatum := []
deriving DecidableEq, Repr

/-- The scan of `find_player_struct_by_pid`, position-returning. -/
def find_player_idx_loop (player_id : Int) :
    List BungieNetPlayerDatum → Nat → Option Nat
  | [], _ => none
  | p :: rest, i =>
      if p.player_id = player_id then some i
      else find_player_idx_loop player_id rest (i + 1)

/-- Embeds `find_player_struct_by_pid` (game_evaluator.py lines 29-51), returning
the position of the found structure so the caller's in-place mutation can be
modelled: first index `i < player_count` with `players[i].player_id ==
player_id`. -/
def find_player_struct_by_pid (player_id : Int) (player_count : Nat)
    (players : List BungieNetPlayerDatum) : Option Nat :=
  find_player_idx_loop player_id (players.take player_count) 0

/-- Embeds `lst[n] = f(lst[n])` on a Python list: out-of-range indices cannot occur
on the paths exercised (hypotheses keep them in range). -/
def list_modify (l : List BungieNetPlayerScoreDatum) (n : Nat)
    (f : BungieNetPlayerScoreDatum → BungieNetPlayerScoreDatum) :
    List BungieNetPlayerScoreDatum :=
  match l.get? n with
  | some a => l.set n (f a)
  | none => l

/-- The unconditional per-row update of `bungie_net_game_evaluate`:
`damage_inflicted += points_killed`, `damage_received += points_lost`,
`games_played += 1`. -/
def score_row_base (s : BungieNetPlayerScoreDatum) (kills lost : Int) :
    BungieNetPlayerScoreDatum :=
  { s with
     damage_inflicted := s.damage_inflicted + kills,
     damage_received := s.damage_received + lost,
     games_played := s.games_played + 1 }

/-- The winner branch (`place == 0`): `wins += 1`, `points += 3`, then
`highest_points = points` when exceeded. -/
def score_row_win (s : BungieNetPlayerScoreDatum) :
    BungieNetPlayerScoreDatum :=
  let s := { s with wins := s.wins + 1, points := s.points + 3 }
  if s.points > s.highest_points then { s with highest_points := s.points }
  else s

/-- The loser branch (`place == number_of_teams - 1`): `losses += 1`,
`points -= 1`. -/
def score_row_loss (s : BungieNetPlayerScoreDatum) :
    BungieNetPlayerScoreDatum :=
  { s with losses := s.losses + 1, points := s.points - 1 }

/-- The whole mutation one standings entry inflicts on its found player:
base update on the overall ranked row and on row `game_type` of the
per-game-type list, then the winner branch on `place == 0`, else the loser
branch on `place == number_of_teams - 1`. -/
def update_found_player (p : BungieNetPlayerDatum) (kills lost : Int)
    (place number_of_teams : Int) (game_type : Nat) : BungieNetPlayerDatum :=
  let p := { p with
              ranked_score := score_row_base p.ranked_score kills lost,
              ranked_scores_by_game_type :=
                list_modify p.ranked_scores_by_game_type game_type
                  (fun s => score_row_base s kills lost) }
  if place = 0 then
    { p with
       ranked_score := score_row_win p.ranked_score,
       ranked_scores_by_game_type :=
         list_modify p.ranked_scores_by_game_type game_type score_row_win }
  else if place = number_of_teams - 1 then
    { p with
       ranked_score := score_row_loss p.ranked_score,
       ranked_scores_by_game_type :=
         list_modify p.ranked_scores_by_game_type game_type score_row_loss }
  else p

/-- One iteration of the scoring loop of `bungie_net_game_evaluate`
(game_evaluator.py lines 169-212): look the standings player up in
`bungie_net_players` (a miss leaves everything unchanged), read the team's
`place`, and apply `update_found_player` at the found position. -/
def evaluate_step (teams : List StandingsTeam) (number_of_teams : Int)
    (game_type : Nat) (player_count : Nat) (sp : StandingsPlayer)
    (players : List BungieNetPlayerDatum) : List BungieNetPlayerDatum :=
  match find_player_struct_by_pid sp.bungie_net_player_id player_count
      players with
  | none => players
  | some j =>
      match players.get? j with
      | none => players
      | some p =>
          let place := (teams.getD sp.team_index ⟨0⟩).place
          players.set j
            (update_found_player p sp.points_killed sp.points_lost place
              number_of_teams game_type)

/-- Embeds `bungie_net_game_evaluate` (game_evaluator.py lines 115-212) restricted
to its effect on the player statistics rows: resolve the authoritative
standings (bail out on `None` standings, `None` players/teams or a missing
game record), and for a `RANKED_NORMAL`/`UNRANKED_NORMAL` classification run
the scoring loop over the first `player_count` standings entries. The
`game_service` store round-trips do not touch these rows. -/
def bungie_net_game_evaluate (game_exists : Bool)
    (game_classification : Int) (player_count : Nat)
    (bungie_net_players : List BungieNetPlayerDatum)
    (reported_standings : List (Option BungieNetGameStandings)) :
    List BungieNetPlayerDatum :=
  match find_good_standings_for_game player_count reported_standings with
  | none => bungie_net_players
  | some st =>
      match st.players, st.teams with
      | some ps, some ts =>
          if !game_exists then bungie_net_players
          else if game_classification = RANKED_NORMAL ∨
              game_classification = UNRANKED_NORMAL then
            (ps.take player_count).foldl
              (fun acc sp =>
                evaluate_step ts st.number_of_teams st.game_scoring
                  player_count sp acc)
              bungie_net_players
          else bungie_net_players
      | _, _ => bungie_net_players

/- ============ Game search (src/services/game_search_service.py) ======= -/

/-- Embeds `MAXIMUM_GAME_SEARCH_RESPONSES` (src/models/metaserver_structs.py line
251). -/
def MAXIMUM_GAME_SEARCH_RESPONSES : Nat := 5

/-- Embeds `GameData` as carried by `GSUpdatePacket`/`handle_gs_update`
(game_search_service.py): the fields a query can match on. -/
structure SearchGameData where
  room_id : Int
  game_id : Int
  flags : Int
  game_name : String
  map_name : String
deriving DecidableEq, Repr

/-- Modelled from the spec: `GameManager.search_games` is not among the
sources (only its caller `handle_gs_query` in
src/services/game_search_service.py and the constant
`MAXIMUM_GAME_SEARCH_RESPONSES` in src/models/metaserver_structs.py are).
The spec says the query matches games by intersection of the query
predicates over the live index ordered by recency and caps the response at
`MAXIMUM_GAME_SEARCH_RESPONSES` matches per request. The index order and the
predicate are abstracted: `games` is the recency-ordered index and
`matches` the conjunction of the query predicates. -/
def search_games (games : List SearchGameData)
    (pred : SearchGameData → Bool) : List SearchGameData :=
  (games.filter pred).take MAXIMUM_GAME_SEARCH_RESPONSES

/-- Embeds `handle_gs_query` (game_search_service.py lines 201-221): one
`GSUpdatePacket` response is queued per game returned by `search_games`;
the queued payloads are returned here. -/
def handle_gs_query (games : List SearchGameData)
    (pred : SearchGameData → Bool) : List SearchGameData :=
  (search_games games pred).map (fun g => g)

/- ============ Specification-side predicates =========================== -/

/-- The multiset of team assignments of a roster. -/
def assigned_teams (e : GameEntry) : List Int :=
  e.players.filterMap (fun p => p.2.team)

/-- The readiness invariants of the spec, written from the claim: game in
`WAITING`, at least one player, every player ready, and for a team game
every player assigned to a team with all team sizes equal. -/
def ready_spec (e : GameEntry) : Prop :=
  e.status.state = GameState.WAITING ∧
  e.players ≠ [] ∧
  (∀ p ∈ e.players, p.2.ready = true) ∧
  (e.status.team_game = true →
    (∀ p ∈ e.players, p.2.team ≠ none) ∧
    ∀ t1 ∈ assigned_teams e, ∀ t2 ∈ assigned_teams e,
      (assigned_teams e).count t1 = (assigned_teams e).count t2)

/-- What `join_room` actually requires of the addressed room for a player
join, written for the amended admission claim: live state, password gate,
and a member count below the cap (the capacity check precedes the
already-a-member check). -/
def join_admission_spec (room : Room) (_user_id : Nat)
    (password : Option String) : Prop :=
  (room.info.state = RoomState.WAITING ∨
    room.info.state = RoomState.STARTING) ∧
  (∀ p, room.password = some p → p ≠ "" → password = some p) ∧
  room.players.length < room.info.settings.max_players

/-- The per-row score mutation written from the amended claim's words:
`games_played`, `damage_inflicted`, `damage_received` always accumulate; a
team placed 0 earns a win, 3 points and a `highest_points` refresh when
exceeded; a team placed last — and not also first — takes a loss and loses a
point; every other place changes nothing further. -/
def claim_score_row_update (s : BungieNetPlayerScoreDatum)
    (kills lost place last_place : Int) : BungieNetPlayerScoreDatum :=
  let s1 := { s with
               games_played := s.games_played + 1,
               damage_inflicted := s.damage_inflicted + kills,
               damage_received := s.damage_received + lost }
  if place = 0 then
    { s1 with
       wins := s1.wins + 1,
       points := s1.points + 3,
       highest_points := max (s1.points + 3) s1.highest_points }
  else if place = last_place then
    { s1 with losses := s1.losses + 1, points := s1.points - 1 }
  else s1

/- ============ Concrete instances for witnesses and counterexamples ==== -/

/-- A two-player, non-team game in `WAITING` with only the first player
ready; its roster order makes user 1 the first-joined player. -/
def coordEntryA : GameEntry :=
  { status := { game_id := 11, state := GameState.WAITING, map_name := "m",
                player_count := 2, max_players := 8, team_game := false },
    players := [(1, { user_id := 1, ready := true }),
                (2, { user_id := 2, ready := false })] }

/-- A one-player game in `IN_PROGRESS` whose player has been silent since
minute 0. -/
def coordEntryB : GameEntry :=
  { status := { game_id := 12, state := GameState.IN_PROGRESS,
                map_name := "m", player_count := 1, max_players := 8,
                team_game := false },
    players := [(3, { user_id := 3, ready := true, last_active := 0 })] }

/-- A one-player game in `WAITING` below capacity, for the idempotent-join
witness. -/
def coordEntryC : GameEntry :=
  { status := { game_id := 13, state := GameState.WAITING, map_name := "m",
                player_count := 1, max_players := 8, team_game := false },
    players := [(7, { user_id := 7 })] }

/-- A room table with user 7 already a member of room 1 and room 2 empty. -/
def roomTableA : List (Nat × Room) :=
  [(1, { info := { room_id := 1,
                   settings := { name := "a", max_players := 8 },
                   host_id := 1, state := RoomState.WAITING,
                   player_count := 1, spectator_count := 0 },
         players := [7] }),
   (2, { info := { room_id := 2,
                   settings := { name := "b", max_players := 8 },
                   host_id := 1, state := RoomState.WAITING,
                   player_count := 0, spectator_count := 0 },
         players := [] })]

/-- A standings report for a single-player, single-team game: the one team
placed 0, which is simultaneously the last place. -/
def standingsOneTeam : BungieNetGameStandings :=
  { game_ended_code := 1, version_number := 1, number_of_players := 1,
    number_of_teams := 1, game_scoring := 0,
    players := some [{ bungie_net_player_id := 5, team_index := 0,
                       points_killed := 2, points_lost := 1 }],
    teams := some [{ place := 0 }] }

/-- The single ranked player of `standingsOneTeam`, with zeroed score rows. -/
def playerFive : BungieNetPlayerDatum :=
  { player_id := 5, ranked_score := {},
    ranked_scores_by_game_type := [{}] }

/-- A two-team standings report for the amended score-application witness:
player 5 on the winning team 0, player 6 on the losing team 1. -/
def standingsTwoTeams : BungieNetGameStandings :=
  { game_ended_code := 1, version_number := 1, number_of_players := 2,
    number_of_teams := 2, game_scoring := 0,
    players := some [{ bungie_net_player_id := 5, team_index := 0,
                       points_killed := 2, points_lost := 1 },
                     { bungie_net_player_id := 6, team_index := 1,
                       points_killed := 0, points_lost := 3 }],
    teams := some [{ place := 0 }, { place := 1 }] }

/-- The second ranked player for `standingsTwoTeams`. -/
def playerSix : BungieNetPlayerDatum :=
  { player_id := 6, ranked_score := {},
    ranked_scores_by_game_type := [{}] }

/-- A one-entry token registry for user 5. -/
def tokenTableA : List (String × AuthToken) :=
  [("t1", { token := "t1", user_id := 5, created_at := 0,
            expires_at := 100 })]

/-- A one-entry user store for user 5. -/
def userTableA : List (Nat × StoredUser) :=
  [(5, { password := "h1", salt := [1] })]

/- ===================================================================== -/
/- =========================== Theorems ================================ -/
/- ===================================================================== -/

/- Generic association-list lemmas (Python dict semantics). -/

theorem lookup_eq_none_iff {α β : Type} [DecidableEq α]
    (l : List (α × β)) (k : α) :
    l.lookup k = none ↔ k ∉ l.map Prod.fst := by
  induction l with
  | nil => simp
  | cons p rest ih =>
      rcases p with ⟨k', v⟩
      by_cases h : k = k'
      · have hb : (k == k') = true := beq_iff_eq.2 h
        simp [List.lookup_cons, hb, h]
      · have hb : (k == k') = false := beq_eq_false_iff_ne.2 h
        simp [List.lookup_cons, hb, ih, h]

theorem lookup_mem {α β : Type} [DecidableEq α]
    {l : List (α × β)} {k : α} {v : β} (h : l.lookup k = some v) :
    (k, v) ∈ l := by
  induction l with
  | nil => simp [List.lookup_nil] at h
  | cons p rest ih =>
      rcases p with ⟨k', v'⟩
      by_cases hk : k = k'
      · have hb : (k == k') = true := beq_iff_eq.2 hk
        rw [List.lookup_cons] at h
        simp only [hb] at h
        simp only [Option.some.injEq] at h
        subst hk
        subst h
        exact List.mem_cons_self _ _
      · have hb : (k == k') = false := beq_eq_false_iff_ne.2 hk
        rw [List.lookup_cons] at h
        simp only [hb] at h
        exact List.mem_cons_of_mem _ (ih h)

theorem lookup_map_keyed {α β : Type} [DecidableEq α]
    (l : List (α × β)) (k : α) (g : β → β) :
    (l.map (fun p => if p.1 = k then (p.1, g p.2) else p)).lookup k =
      (l.lookup k).map g := by
  induction l with
  | nil => simp
  | cons p rest ih =>
      rcases p with ⟨k', v⟩
      by_cases h : k' = k
      · subst h
        have hb : (k' == k') = true := beq_iff_eq.2 rfl
        simp [List.lookup_cons, hb]
      · have h' : (k == k') = false :=
          beq_eq_false_iff_ne.2 (fun hh => h hh.symm)
        simp [List.lookup_cons, h, h', ih]

theorem lookup_map_keyed_other {α β : Type} [DecidableEq α]
    (l : List (α × β)) (k k' : α) (g : β → β) (hne : k' ≠ k) :
    (l.map (fun p => if p.1 = k then (p.1, g p.2) else p)).lookup k' =
      l.lookup k' := by
  induction l with
  | nil => simp
  | cons p rest ih =>
      rcases p with ⟨k0, v⟩
      by_cases h : k0 = k
      · subst h
        have hb : (k' == k0) = false := beq_eq_false_iff_ne.2 hne
        simp [List.lookup_cons, hb, ih]
      · by_cases h2 : k' = k0
        · have hb : (k' == k0) = true := beq_iff_eq.2 h2
          simp [List.lookup_cons, hb, h]
        · have hb : (k' == k0) = false := beq_eq_false_iff_ne.2 h2
          simp [List.lookup_cons, hb, h, ih]

theorem nodup_keys_lookup_self {α β : Type} [DecidableEq α]
    {l : List (α × β)} (hnd : (l.map Prod.fst).Nodup)
    {p : α × β} (hp : p ∈ l) : l.lookup p.1 = some p.2 := by
  induction l with
  | nil => simp at hp
  | cons q rest ih =>
      rcases q with ⟨k', v'⟩
      simp only [List.map_cons, List.nodup_cons] at hnd
      rcases List.mem_cons.1 hp with h | h
      · subst h
        have hb : (k' == k') = true := beq_iff_eq.2 rfl
        simp [List.lookup_cons, hb]
      · have hne : p.1 ≠ k' := by
          intro he
          exact hnd.1 (he ▸ List.mem_map_of_mem Prod.fst h)
        have hb : (p.1 == k') = false := beq_eq_false_iff_ne.2 hne
        rw [List.lookup_cons]
        simp only [hb]
        exact ih hnd.2 h

/- ------------------------- Claim C9 ---------------------------------- -/

/-- C9: every game-search query response contains at most
`MAXIMUM_GAME_SEARCH_RESPONSES = 5` matching games. -/
theorem claim_C9_query_capped_at_five (games : List SearchGameData)
    (pred : SearchGameData → Bool) :
    (handle_gs_query games pred).length ≤ 5 := by
  simp only [handle_gs_query, search_games, List.map_id', List.length_map]
  exact List.length_take_le _ _

/- ------------------------- Claim C10 --------------------------------- -/

/-- C10: `add_player` is idempotent for a user already in the game: in
`INITIALIZING` or `WAITING` below capacity, adding a user already in the
roster returns `True` and leaves the entry (roster, `player_count`, the
player's team and ready flag) unchanged. -/
theorem claim_C10_add_player_idempotent (e : GameEntry) (uid : Nat)
    (team : Option Int) (now : Int)
    (hstate : e.status.state = GameState.INITIALIZING ∨
      e.status.state = GameState.WAITING)
    (hcap : e.status.player_count < e.status.max_players)
    (hmem : (e.players.lookup uid).isSome = true) :
    add_player (some e) uid team now = (some e, true) := by
  simp only [add_player]
  rw [if_pos hstate, if_neg (by omega), if_pos hmem]

/-- Witness for C10 at a concrete one-player game in `WAITING`. -/
theorem claim_C10_witness :
    (coordEntryC.status.state = GameState.INITIALIZING ∨
      coordEntryC.status.state = GameState.WAITING) ∧
    coordEntryC.status.player_count < coordEntryC.status.max_players ∧
    (coordEntryC.players.lookup 7).isSome = true ∧
    add_player (some coordEntryC) 7 none 99 = (some coordEntryC, true) :=
  ⟨by decide, by decide, by decide,
    claim_C10_add_player_idempotent coordEntryC 7 none 99 (by decide)
      (by decide) (by decide)⟩

/- ------------------------- Claim C3 ---------------------------------- -/

theorem generate_unpack_host (host user_id expiration : Nat)
    (padding : List Nat) (hh : host < 4294967296) :
    unpack_u32 (AuthenticationToken.generate host user_id expiration
      padding).data 0 = host := by
  simp only [AuthenticationToken.generate, pack_u32, unpack_u32,
    List.cons_append, List.nil_append, List.getD_cons_zero,
    List.getD_cons_succ]
  omega

theorem generate_unpack_uid (host user_id expiration : Nat)
    (padding : List Nat) (hu : user_id < 4294967296) :
    unpack_u32 (AuthenticationToken.generate host user_id expiration
      padding).data 4 = user_id := by
  simp only [AuthenticationToken.generate, pack_u32, unpack_u32,
    List.cons_append, List.nil_append, List.getD_cons_zero,
    List.getD_cons_succ]
  omega

theorem generate_unpack_exp (host user_id expiration : Nat)
    (padding : List Nat) (he : expiration < 4294967296) :
    unpack_u32 (AuthenticationToken.generate host user_id expiration
      padding).data 8 = expiration := by
  simp only [AuthenticationToken.generate, pack_u32, unpack_u32,
    List.cons_append, List.nil_append, List.getD_cons_zero,
    List.getD_cons_succ]
  omega

/-- C3: validating a generated token against a client address and a time
rejects on a client address differing from the embedded IP, rejects on a
time past the embedded expiration, and otherwise succeeds with exactly the
embedded user id. -/
theorem claim_C3_token_validation (host user_id expiration : Nat)
    (padding : List Nat) (a t : Nat)
    (hh : host < 4294967296) (hu : user_id < 4294967296)
    (he : expiration < 4294967296) :
    (AuthenticationToken.generate host user_id expiration
      padding).authenticate a t =
      if a ≠ host then (false, none)
      else if t > expiration then (false, none)
      else (true, some user_id) := by
  simp only [AuthenticationToken.authenticate,
    generate_unpack_host host user_id expiration padding hh,
    generate_unpack_uid host user_id expiration padding hu,
    generate_unpack_exp host user_id expiration padding he]
  by_cases hah : host = a
  · subst hah
    simp
  · have : a ≠ host := fun hc => hah hc.symm
    simp [hah, this]

/-- Witness for C3: the worked token accepts its own address before expiry
and yields the embedded user id. -/
theorem claim_C3_witness :
    (2130706433 : Nat) < 4294967296 ∧ (12345 : Nat) < 4294967296 ∧
    (1000 : Nat) < 4294967296 ∧
    (AuthenticationToken.generate 2130706433 12345 1000 []).authenticate
      2130706433 999 = (true, some 12345) := by
  refine ⟨by decide, by decide, by decide, ?_⟩
  rw [claim_C3_token_validation 2130706433 12345 1000 [] 2130706433 999
    (by decide) (by decide) (by decide)]
  decide

/- ------------------------- Claim C1 ---------------------------------- -/

theorem find_same_standings_eq_spec (a b : BungieNetGameStandings) :
    find_same_standings (some a) (some b) =
      decide (same_standings_spec a b) := by
  by_cases h1 : a.game_ended_code = b.game_ended_code <;>
    by_cases h2 : a.version_number = b.version_number <;>
      by_cases h3 : a.number_of_players = b.number_of_players <;>
        simp [find_same_standings, same_standings_spec, h1, h2, h3]

theorem find_good_standings_loop_some
    (m : List (Option BungieNetGameStandings)) (c : BungieNetGameStandings) :
    find_good_standings_loop m (some c) =
      if (m.filterMap id).any
          (fun r => find_same_standings (some r) (some c)) then some c
      else none := by
  induction m with
  | nil => simp [find_good_standings_loop]
  | cons x rest ih =>
      cases x with
      | none => simpa [find_good_standings_loop] using ih
      | some t =>
          by_cases h : find_same_standings (some t) (some c) = true
          · simp [find_good_standings_loop, h]
          · simp only [Bool.not_eq_true] at h
            simp [find_good_standings_loop, h, ih]

theorem find_good_standings_loop_none
    (m : List (Option BungieNetGameStandings)) :
    find_good_standings_loop m none =
      match m.filterMap id with
      | [] => none
      | cand :: later =>
          if later.any (fun r => find_same_standings (some r) (some cand))
          then some cand else none := by
  induction m with
  | nil => simp [find_good_standings_loop]
  | cons x rest ih =>
      cases x with
      | none => simpa [find_good_standings_loop] using ih
      | some t =>
          simp [find_good_standings_loop, find_good_standings_loop_some]

/-- C1: for every game and every report list the code's choice of
authoritative standings equals the claim's rule: iterate the reports in
receipt order, compare each new report against the current candidate (the
first present report) with `same_standings`, the candidate becomes
authoritative on the first agreement, no agreeing pair yields no result, and
a single-player game accepts its single report. -/
theorem claim_C1_authoritative_standings (player_count : Nat)
    (all_standings : List (Option BungieNetGameStandings))
    (hlen : player_count ≤ all_standings.length) :
    find_good_standings_for_game player_count all_standings =
      authoritative_standings_spec player_count all_standings := by
  cases all_standings with
  | nil => rfl
  | cons first rest =>
      by_cases h1 : player_count = 1
      · simp [find_good_standings_for_game, authoritative_standings_spec, h1]
      · simp only [find_good_standings_for_game,
          authoritative_standings_spec, h1, if_false,
          find_good_standings_loop_none]
        cases hfm : ((first :: rest).take player_count).filterMap id with
        | nil => rfl
        | cons cand later => simp only [find_same_standings_eq_spec]

/-- Witness for C1 at a two-report agreeing game. -/
theorem claim_C1_witness :
    (2 : Nat) ≤ ([some standingsTwoTeams,
      some standingsTwoTeams] : List (Option BungieNetGameStandings)).length ∧
    find_good_standings_for_game 2
        [some standingsTwoTeams, some standingsTwoTeams] =
      authoritative_standings_spec 2
        [some standingsTwoTeams, some standingsTwoTeams] :=
  ⟨by decide,
    claim_C1_authoritative_standings 2
      [some standingsTwoTeams, some standingsTwoTeams] (by decide)⟩

/- ------------------------- Claim C5 ---------------------------------- -/

theorem invalidate_token_sublist (m : List (String × AuthToken))
    (tok : String) : (invalidate_token m tok).1.Sublist m := by
  unfold invalidate_token
  cases m.lookup tok with
  | none => exact List.Sublist.refl m
  | some v => exact List.eraseP_sublist m

theorem lookup_none_of_sublist {α β : Type} [DecidableEq α]
    {m' m : List (α × β)} (hs : m'.Sublist m) {k : α}
    (h : m.lookup k = none) : m'.lookup k = none := by
  rw [lookup_eq_none_iff] at h ⊢
  exact fun hc => h ((hs.map Prod.fst).subset hc)

theorem invalidate_token_preserves_none (m : List (String × AuthToken))
    (tok ts : String) (h : m.lookup ts = none) :
    (invalidate_token m tok).1.lookup ts = none :=
  lookup_none_of_sublist (invalidate_token_sublist m tok) h

theorem invalidate_token_nodup (m : List (String × AuthToken)) (tok : String)
    (h : (m.map Prod.fst).Nodup) :
    ((invalidate_token m tok).1.map Prod.fst).Nodup :=
  ((invalidate_token_sublist m tok).map Prod.fst).nodup h

theorem erase_key_lookup_none (ts : String) :
    ∀ m : List (String × AuthToken), (m.map Prod.fst).Nodup →
    (m.eraseP (fun q => q.1 = ts)).lookup ts = none := by
  intro m
  induction m with
  | nil => intro _; rfl
  | cons p rest ih =>
      intro hnd
      rcases p with ⟨k, v⟩
      simp only [List.map_cons, List.nodup_cons] at hnd
      by_cases hk : k = ts
      · subst hk
        rw [List.eraseP_cons]
        simp only [decide_True, cond_true]
        rw [lookup_eq_none_iff]
        exact hnd.1
      · rw [List.eraseP_cons]
        have hd : (decide ((k, v).1 = ts)) = false := decide_eq_false hk
        rw [hd, cond_false]
        have hb : (ts == k) = false :=
          beq_eq_false_iff_ne.2 (fun hc => hk hc.symm)
        rw [List.lookup_cons]
        simp only [hb]
        exact ih hnd.2

theorem invalidate_token_removes (m : List (String × AuthToken))
    (ts : String) (hnd : (m.map Prod.fst).Nodup) :
    (invalidate_token m ts).1.lookup ts = none := by
  unfold invalidate_token
  cases h : m.lookup ts with
  | none => exact h
  | some v => exact erase_key_lookup_none ts m hnd

theorem revoke_preserves_none (uid : Nat) (ts : String) :
    ∀ (snap cur : List (String × AuthToken)), cur.lookup ts = none →
    (revoke_user_tokens snap cur uid).lookup ts = none := by
  intro snap
  induction snap with
  | nil => intro cur h; exact h
  | cons p rest ih =>
      intro cur h
      rcases p with ⟨ts', t'⟩
      unfold revoke_user_tokens
      by_cases hu : t'.user_id = uid
      · rw [if_pos hu]
        exact ih _ (invalidate_token_preserves_none cur ts' ts h)
      · rw [if_neg hu]
        exact ih _ h

theorem revoke_removes (uid : Nat) (ts : String) (t : AuthToken) :
    ∀ (snap cur : List (String × AuthToken)),
    snap.lookup ts = some t → t.user_id = uid →
    (cur.map Prod.fst).Nodup →
    (revoke_user_tokens snap cur uid).lookup ts = none := by
  intro snap
  induction snap with
  | nil => intro cur h; simp at h
  | cons p rest ih =>
      intro cur h huid hnd
      rcases p with ⟨ts', t'⟩
      by_cases hk : ts = ts'
      · subst hk
        have hb : (ts == ts) = true := beq_iff_eq.2 rfl
        rw [List.lookup_cons] at h
        simp only [hb, Option.some.injEq] at h
        subst h
        unfold revoke_user_tokens
        rw [if_pos huid]
        exact revoke_preserves_none uid ts rest _
          (invalidate_token_removes cur ts hnd)
      · have hb : (ts == ts') = false := beq_eq_false_iff_ne.2 hk
        rw [List.lookup_cons] at h
        simp only [hb] at h
        unfold revoke_user_tokens
        by_cases hu : t'.user_id = uid
        · rw [if_pos hu]
          exact ih _ h huid (invalidate_token_nodup cur ts' hnd)
        · rw [if_neg hu]
          exact ih _ h huid hnd

/-- C5: after a successful `change_password` for user `uid`, the stored user
record carries a hash of the new password under the current default scheme
(`BCRYPT`) with the fresh salt, and every token previously issued to `uid`
is rejected by `validate_token` at every time. -/
theorem claim_C5_change_password_revokes_tokens
    (encrypt : String → List Nat → EncryptionType → String)
    (pw_match : String → String → List Nat → Bool)
    (users : List (Nat × StoredUser)) (tokens : List (String × AuthToken))
    (uid : Nat) (old_pw new_pw : String) (new_salt : List Nat)
    (u : StoredUser)
    (hnd : (tokens.map Prod.fst).Nodup)
    (hu : users.lookup uid = some u)
    (hpw : pw_match old_pw u.password u.salt = true) :
    (change_password encrypt pw_match users tokens uid old_pw new_pw
      new_salt).2.2 = true ∧
    (change_password encrypt pw_match users tokens uid old_pw new_pw
      new_salt).1.lookup uid =
      some { password := encrypt new_pw new_salt EncryptionType.BCRYPT,
             salt := new_salt } ∧
    (∀ ts t, tokens.lookup ts = some t → t.user_id = uid → ∀ now : Int,
      (validate_token (change_password encrypt pw_match users tokens uid
        old_pw new_pw new_salt).2.1 now ts).2 = (false, none)) := by
  have hcp : change_password encrypt pw_match users tokens uid old_pw new_pw
      new_salt =
      (users.map (fun p =>
        if p.1 = uid then
          (p.1, { password := encrypt new_pw new_salt EncryptionType.BCRYPT,
                  salt := new_salt })
        else p),
       revoke_user_tokens tokens tokens uid, true) := by
    unfold change_password
    rw [hu]
    simp [hpw]
  rw [hcp]
  refine ⟨rfl, ?_, ?_⟩
  · have h2 := lookup_map_keyed users uid
      (fun _ => ({ password := encrypt new_pw new_salt EncryptionType.BCRYPT,
                   salt := new_salt } : StoredUser))
    rw [hu] at h2
    exact h2
  · intro ts t hts huid now
    have hnone : (revoke_user_tokens tokens tokens uid).lookup ts = none :=
      revoke_removes uid ts t tokens tokens hts huid hnd
    simp [validate_token, hnone]

/-- Witness for C5 at a one-user, one-token state with stub crypto. -/
theorem claim_C5_witness :
    ((tokenTableA.map Prod.fst).Nodup ∧
      userTableA.lookup 5 = some { password := "h1", salt := [1] }) ∧
    ((change_password (fun _ _ _ => "h2") (fun _ _ _ => true) userTableA
        tokenTableA 5 "p1" "p2" [2]).2.2 = true ∧
      (change_password (fun _ _ _ => "h2") (fun _ _ _ => true) userTableA
        tokenTableA 5 "p1" "p2" [2]).1.lookup 5 =
        some { password := "h2", salt := [2] } ∧
      (∀ ts t, tokenTableA.lookup ts = some t → t.user_id = 5 →
        ∀ now : Int,
        (validate_token (change_password (fun _ _ _ => "h2")
          (fun _ _ _ => true) userTableA tokenTableA 5 "p1" "p2"
          [2]).2.1 now ts).2 = (false, none))) :=
  ⟨⟨by decide, by decide⟩,
    claim_C5_change_password_revokes_tokens (fun _ _ _ => "h2")
      (fun _ _ _ => true) userTableA tokenTableA 5 "p1" "p2" [2]
      { password := "h1", salt := [1] } (by decide) (by decide) rfl⟩

/- ------------------------- Claim C6 ---------------------------------- -/

theorem end_game_of_in_progress (e : GameEntry) (now : Int)
    (h : e.status.state = GameState.IN_PROGRESS) :
    end_game (some e) now =
      (none, true, some { e with
        status := { e.status with
                     state := GameState.COMPLETED,
                     end_time := some now } }) := by
  simp [end_game, h]

theorem check_game_ready_of_not_waiting (e : GameEntry)
    (h : e.status.state ≠ GameState.WAITING) :
    (check_game_ready (some e)).1 = false := by
  simp [check_game_ready, h]

/-- C6 counterexample: a concrete `IN_PROGRESS` game whose single player has
been silent for 31 minutes is ended by the cleanup pass via `end_game`,
which records `COMPLETED` — not `ENDING` and not `ABORTED` as the claim
requires. -/
theorem claim_C6_counterexample :
    coordEntryB.status.state = GameState.IN_PROGRESS ∧
    (cleanup_game (some coordEntryB) 31).1 = none ∧
    ((cleanup_game (some coordEntryB) 31).2.map
      (fun e => e.status.state)) = some GameState.COMPLETED ∧
    GameState.COMPLETED ≠ GameState.ENDING ∧
    GameState.COMPLETED ≠ GameState.ABORTED := by decide

/-- C6 amended: from `IN_PROGRESS` every coordinator operation either leaves
the game in `IN_PROGRESS` or ends it through `end_game`, which records
`COMPLETED` (never `ENDING` or `ABORTED`) and removes the entry; in
particular heartbeat silence of all players for at least 30 minutes makes
the cleanup pass end the game as `COMPLETED`. -/
theorem claim_C6_amended_in_progress_transitions (op : CoordOp)
    (e : GameEntry) (h : e.status.state = GameState.IN_PROGRESS) :
    (∀ e', (apply_coord_op op (some e)).1 = some e' →
      e'.status.state = GameState.IN_PROGRESS) ∧
    (∀ er, (apply_coord_op op (some e)).2 = some er →
      er.status.state = GameState.COMPLETED) ∧
    ((apply_coord_op op (some e)).1 = none →
      (apply_coord_op op (some e)).2.isSome = true) := by
  cases op with
  | addPlayer uid team now =>
      refine ⟨?_, ?_, ?_⟩ <;> simp [apply_coord_op, add_player, h]
  | removePlayer uid now =>
      by_cases hm : (e.players.lookup uid).isSome
      · by_cases hempty :
            e.players.filter (fun p => !decide (p.1 = uid)) = []
        · refine ⟨?_, ?_, ?_⟩ <;>
            simp [apply_coord_op, remove_player, decide_not, hm, hempty,
              end_game, h]
        · refine ⟨?_, ?_, ?_⟩ <;>
            simp [apply_coord_op, remove_player, decide_not, hm, hempty, h]
      · refine ⟨?_, ?_, ?_⟩ <;> simp [apply_coord_op, remove_player, hm, h]
  | setReady uid ready now =>
      by_cases hm : (e.players.lookup uid).isSome
      · have hst : (mark_player_ready e uid ready).status.state =
            GameState.IN_PROGRESS := h
        have hcheck : (check_game_ready
            (some (mark_player_ready e uid ready))).1 = false := by
          apply check_game_ready_of_not_waiting
          rw [hst]
          simp
        cases ready <;>
          (refine ⟨?_, ?_, ?_⟩ <;>
            simp [apply_coord_op, set_player_ready, hm, hcheck, hst])
      · refine ⟨?_, ?_, ?_⟩ <;> simp [apply_coord_op, set_player_ready, hm, h]
  | setTeam uid team =>
      by_cases hm : (e.players.lookup uid).isSome
      · by_cases htg : e.status.team_game <;>
          (refine ⟨?_, ?_, ?_⟩ <;>
            simp [apply_coord_op, set_player_team, hm, htg, h])
      · refine ⟨?_, ?_, ?_⟩ <;> simp [apply_coord_op, set_player_team, hm, h]
  | startOp now =>
      refine ⟨?_, ?_, ?_⟩ <;> simp [apply_coord_op, start_game, h]
  | endOp now =>
      refine ⟨?_, ?_, ?_⟩ <;>
        simp [apply_coord_op, end_game_of_in_progress e now h]
  | updateActivity uid now =>
      by_cases hm : (e.players.lookup uid).isSome
      · refine ⟨?_, ?_, ?_⟩ <;>
          simp [apply_coord_op, update_player_activity, hm, h]
      · refine ⟨?_, ?_, ?_⟩ <;>
          simp [apply_coord_op, update_player_activity, hm, h]
  | cleanup now =>
      by_cases hall :
          e.players.all (fun p => !(now - p.2.last_active < 30 : Bool))
      · refine ⟨?_, ?_, ?_⟩ <;>
          simp [apply_coord_op, cleanup_game, h, hall, end_game]
      · refine ⟨?_, ?_, ?_⟩ <;>
          simp [apply_coord_op, cleanup_game, h, hall]

/-- Witness for the amended C6 at a concrete `end_game` call. -/
theorem claim_C6_amended_witness :
    coordEntryB.status.state = GameState.IN_PROGRESS ∧
    ((∀ e', (apply_coord_op (CoordOp.endOp 5) (some coordEntryB)).1 =
        some e' → e'.status.state = GameState.IN_PROGRESS) ∧
     (∀ er, (apply_coord_op (CoordOp.endOp 5) (some coordEntryB)).2 =
        some er → er.status.state = GameState.COMPLETED) ∧
     ((apply_coord_op (CoordOp.endOp 5) (some coordEntryB)).1 = none →
       (apply_coord_op (CoordOp.endOp 5) (some coordEntryB)).2.isSome =
         true)) :=
  ⟨rfl, claim_C6_amended_in_progress_transitions (CoordOp.endOp 5)
    coordEntryB rfl⟩

/- ------------------------- Claim C7 ---------------------------------- -/

/-- C7 counterexample: in a concrete two-player `WAITING` game whose
first-joined player is user 1, the `set_player_ready` call of user 2 — not
the host under any reading, and carrying no authorization check — takes the
game out of `WAITING` into `IN_PROGRESS` through the auto-start. -/
theorem claim_C7_counterexample :
    coordEntryA.players.map Prod.fst = [1, 2] ∧
    coordEntryA.status.state = GameState.WAITING ∧
    ((set_player_ready (some coordEntryA) 2 true 10).1.map
      (fun e => e.status.state)) = some GameState.IN_PROGRESS ∧
    (set_player_ready (some coordEntryA) 2 true 10).2 = true := by decide

theorem check_game_ready_implies_waiting (e : GameEntry)
    (h : (check_game_ready (some e)).1 = true) :
    e.status.state = GameState.WAITING := by
  by_cases hw : e.status.state = GameState.WAITING
  · exact hw
  · rw [check_game_ready_of_not_waiting e hw] at h
    cases h

/-- C7 amended: the coordinator records no host and checks no requester
identity — `start_game`/`end_game` take only a game id, and `set_player_ready`
by any roster member (host or not) auto-starts the game as soon as the
readiness check passes, moving `WAITING` to `IN_PROGRESS`. -/
theorem claim_C7_amended_any_member_triggers_start (e : GameEntry)
    (uid : Nat) (now : Int)
    (hmem : (e.players.lookup uid).isSome = true)
    (hready : (check_game_ready (some (mark_player_ready e uid true))).1 =
      true) :
    (set_player_ready (some e) uid true now).1 =
      some { mark_player_ready e uid true with
              status := { (mark_player_ready e uid true).status with
                           state := GameState.IN_PROGRESS,
                           start_time := some now } } ∧
    (set_player_ready (some e) uid true now).2 = true := by
  have hw : (mark_player_ready e uid true).status.state =
      GameState.WAITING :=
    check_game_ready_implies_waiting _ hready
  constructor <;> simp [set_player_ready, hmem, hready, start_game, hw]

/-- Witness for the amended C7: the non-first-joined user 2 readies up and
the start fires. -/
theorem claim_C7_amended_witness :
    ((coordEntryA.players.lookup 2).isSome = true ∧
      (check_game_ready (some (mark_player_ready coordEntryA 2 true))).1 =
        true) ∧
    ((set_player_ready (some coordEntryA) 2 true 10).1 =
      some { mark_player_ready coordEntryA 2 true with
              status := { (mark_player_ready coordEntryA 2 true).status with
                           state := GameState.IN_PROGRESS,
                           start_time := some 10 } } ∧
     (set_player_ready (some coordEntryA) 2 true 10).2 = true) :=
  ⟨⟨by decide, by decide⟩,
    claim_C7_amended_any_member_triggers_start coordEntryA 2 10 (by decide)
      (by decide)⟩

/- ------------------------- Claim C8 ---------------------------------- -/

/-- C8 counterexample: user 7 is a member of room 1, yet `join_room` into
room 2 succeeds and leaves the user a member of both rooms — there is no
"not currently in another room" condition and no implicit leave (nor any
caste admission range in the room model at all). -/
theorem claim_C8_counterexample :
    ((roomTableA.lookup 1).map Room.players = some [7]) ∧
    (join_room roomTableA 2 7 none false).2 = true ∧
    (((join_room roomTableA 2 7 none false).1.lookup 1).map Room.players =
      some [7]) ∧
    (((join_room roomTableA 2 7 none false).1.lookup 2).map Room.players =
      some [7]) := by decide

theorem lookup_map_const {α β : Type} [DecidableEq α]
    (l : List (α × β)) (k : α) (v : β) :
    (l.map (fun p => if p.1 = k then (p.1, v) else p)).lookup k =
      (l.lookup k).map (fun _ => v) :=
  lookup_map_keyed l k (fun _ => v)

theorem join_room_player_path_success_iff (room : Room) (uid : Nat) :
    (join_room_player_path room uid).2 = true ↔
      room.players.length < room.info.settings.max_players := by
  unfold join_room_player_path
  by_cases hcap : room.players.length ≥ room.info.settings.max_players
  · rw [if_pos hcap]
    constructor
    · intro h
      simp at h
    · intro h
      omega
  · rw [if_neg hcap]
    by_cases hmem : uid ∈ room.players
    · rw [if_pos hmem]
      constructor
      · intro _
        omega
      · intro _
        rfl
    · rw [if_neg hmem]
      constructor
      · intro _
        omega
      · intro _
        rfl

theorem join_room_player_path_cap (room : Room) (uid : Nat)
    (hle : room.players.length ≤ room.info.settings.max_players) :
    (join_room_player_path room uid).1.players.length ≤
      (join_room_player_path room uid).1.info.settings.max_players := by
  unfold join_room_player_path
  by_cases hcap : room.players.length ≥ room.info.settings.max_players
  · rw [if_pos hcap]
    exact hle
  · rw [if_neg hcap]
    by_cases hmem : uid ∈ room.players
    · rw [if_pos hmem]
      exact hle
    · rw [if_neg hmem]
      simp only [List.length_append, List.length_cons, List.length_nil]
      omega

theorem join_room_one_success_iff (room : Room) (uid : Nat)
    (pwd : Option String) :
    (join_room_one room uid pwd false).2 = true ↔
      join_admission_spec room uid pwd := by
  unfold join_room_one join_admission_spec
  by_cases h1 : room.info.state ≠ RoomState.WAITING ∧
      room.info.state ≠ RoomState.STARTING
  · rw [if_pos h1]
    constructor
    · intro h
      simp at h
    · intro hc
      exfalso
      rcases hc.1 with hw | hs
      · exact h1.1 hw
      · exact h1.2 hs
  · rw [if_neg h1]
    have hstate : room.info.state = RoomState.WAITING ∨
        room.info.state = RoomState.STARTING := by
      rcases not_and_or.1 h1 with h | h
      · exact Or.inl (not_not.1 h)
      · exact Or.inr (not_not.1 h)
    cases hpw : room.password with
    | none =>
        rw [if_pos rfl, join_room_player_path_success_iff]
        constructor
        · intro hlt
          exact ⟨hstate, by simp, hlt⟩
        · intro hc
          exact hc.2.2
    | some p =>
        dsimp only
        by_cases hgate : p ≠ "" ∧ pwd ≠ some p
        · rw [if_pos hgate]
          constructor
          · intro h
            simp at h
          · intro hc
            exact absurd (hc.2.1 p rfl hgate.1) hgate.2
        · rw [if_neg hgate, if_pos rfl, join_room_player_path_success_iff]
          have hpass : ∀ q, some p = some q → q ≠ "" → pwd = some q := by
            intro q hq hnq
            injection hq with hq
            subst hq
            exact not_not.1 (not_and.1 hgate hnq)
          constructor
          · intro hlt
            exact ⟨hstate, hpass, hlt⟩
          · intro hc
            exact hc.2.2

theorem join_room_one_preserves_cap (room : Room) (uid : Nat)
    (pwd : Option String)
    (hle : room.players.length ≤ room.info.settings.max_players) :
    (join_room_one room uid pwd false).1.players.length ≤
      (join_room_one room uid pwd false).1.info.settings.max_players := by
  unfold join_room_one
  by_cases h1 : room.info.state ≠ RoomState.WAITING ∧
      room.info.state ≠ RoomState.STARTING
  · rw [if_pos h1]
    exact hle
  · rw [if_neg h1]
    cases hpw : room.password with
    | none =>
        rw [if_pos rfl]
        exact join_room_player_path_cap room uid hle
    | some p =>
        dsimp only
        by_cases hgate : p ≠ "" ∧ pwd ≠ some p
        · rw [if_pos hgate]
          exact hle
        · rw [if_neg hgate, if_pos rfl]
          exact join_room_player_path_cap room uid hle

/-- C8 amended: a player join succeeds iff the room exists, its state is
`WAITING` or `STARTING`, a set non-empty password is matched, and the member
count is below `max_players` (capacity is checked before the
already-a-member case); the member cap `|players| <= max_players` is
preserved. No caste admission range exists in the room model, and membership
in other rooms is neither checked nor cleared. -/
theorem claim_C8_amended_admission (rooms : List (Nat × Room))
    (rid uid : Nat) (pwd : Option String) :
    ((join_room rooms rid uid pwd false).2 = true ↔
      ∃ room, rooms.lookup rid = some room ∧
        join_admission_spec room uid pwd) ∧
    (∀ room room', rooms.lookup rid = some room →
      room.players.length ≤ room.info.settings.max_players →
      (join_room rooms rid uid pwd false).1.lookup rid = some room' →
      room'.players.length ≤ room'.info.settings.max_players) := by
  cases hroom : rooms.lookup rid with
  | none =>
      constructor
      · simp [join_room, hroom]
      · intro room room' h1 _ _
        exact absurd h1 (by simp)
  | some room =>
      have heq : join_room rooms rid uid pwd false =
          (rooms.map (fun p =>
            if p.1 = rid then (p.1, (join_room_one room uid pwd false).1)
            else p),
           (join_room_one room uid pwd false).2) := by
        simp [join_room, hroom]
      rw [heq]
      constructor
      · constructor
        · intro h
          exact ⟨room, rfl, (join_room_one_success_iff room uid pwd).1 h⟩
        · intro hex
          rcases hex with ⟨room2, hr2, hspec⟩
          injection hr2 with hr2
          subst hr2
          exact (join_room_one_success_iff room uid pwd).2 hspec
      · intro room2 room' h1 hle h2
        injection h1 with h1
        subst h1
        have h3 := lookup_map_const rooms rid
          (join_room_one room uid pwd false).1
        rw [h3, hroom, Option.map_some'] at h2
        injection h2 with h2
        subst h2
        exact join_room_one_preserves_cap room uid pwd hle

/-- Witness for the amended C8: joining the empty room 2 of the table. -/
theorem claim_C8_amended_witness :
    ((join_room roomTableA 2 9 none false).2 = true ↔
      ∃ room, roomTableA.lookup 2 = some room ∧
        join_admission_spec room 9 none) ∧
    (∀ room room', roomTableA.lookup 2 = some room →
      room.players.length ≤ room.info.settings.max_players →
      (join_room roomTableA 2 9 none false).1.lookup 2 = some room' →
      room'.players.length ≤ room'.info.settings.max_players) :=
  claim_C8_amended_admission roomTableA 2 9 none

/- ------------------------- Claim C4 ---------------------------------- -/

theorem lookup_map_const_other {α β : Type} [DecidableEq α]
    (l : List (α × β)) (k k' : α) (v : β) (hne : k' ≠ k) :
    (l.map (fun p => if p.1 = k then (p.1, v) else p)).lookup k' =
      l.lookup k' :=
  lookup_map_keyed_other l k k' (fun _ => v) hne

theorem team_counts_incr_lookup_self (acc : List (Int × Nat)) (t : Int) :
    ((team_counts_incr acc t).lookup t).getD 0 =
      ((acc.lookup t).getD 0) + 1 := by
  unfold team_counts_incr
  cases h : acc.lookup t with
  | none =>
      rw [List.lookup_append, h]
      simp [List.lookup_cons]
  | some n =>
      rw [lookup_map_const acc t (n + 1), h]
      simp

theorem team_counts_incr_lookup_other (acc : List (Int × Nat)) (t t' : Int)
    (hne : t' ≠ t) :
    ((team_counts_incr acc t).lookup t').getD 0 =
      (acc.lookup t').getD 0 := by
  unfold team_counts_incr
  cases h : acc.lookup t with
  | none =>
      rw [List.lookup_append]
      have hnone : ([(t, 1)] : List (Int × Nat)).lookup t' = none := by
        simp [List.lookup_cons, beq_eq_false_iff_ne.2 hne]
      rw [hnone]
      cases acc.lookup t' <;> simp
  | some n =>
      rw [lookup_map_const_other acc t t' (n + 1) hne]

theorem keys_map_ite (acc : List (Int × Nat)) (t : Int) (v : Nat) :
    (acc.map (fun c => if c.1 = t then (c.1, v) else c)).map Prod.fst =
      acc.map Prod.fst := by
  induction acc with
  | nil => rfl
  | cons c rest ih =>
      by_cases h : c.1 = t <;> simp [h, ih]

theorem team_counts_incr_keys (acc : List (Int × Nat)) (t t' : Int) :
    t' ∈ (team_counts_incr acc t).map Prod.fst ↔
      t' ∈ acc.map Prod.fst ∨ t' = t := by
  unfold team_counts_incr
  cases h : acc.lookup t with
  | none => simp
  | some n =>
      rw [keys_map_ite]
      constructor
      · exact Or.inl
      · intro hc
        rcases hc with hc | hc
        · exact hc
        · subst hc
          exact List.mem_map_of_mem Prod.fst (lookup_mem h)

theorem team_counts_incr_nodup (acc : List (Int × Nat)) (t : Int)
    (h : (acc.map Prod.fst).Nodup) :
    ((team_counts_incr acc t).map Prod.fst).Nodup := by
  unfold team_counts_incr
  cases hl : acc.lookup t with
  | none =>
      rw [List.map_append, List.nodup_append]
      refine ⟨h, by simp, ?_⟩
      intro a ha hb
      simp at hb
      subst hb
      exact ((lookup_eq_none_iff acc _).1 hl) ha
  | some n =>
      rw [keys_map_ite]
      exact h

theorem team_counts_loop_none_iff :
    ∀ (l : List (Nat × PlayerStatus)) (acc : List (Int × Nat)),
    team_counts_loop l acc = none ↔ ∃ p ∈ l, p.2.team = none := by
  intro l
  induction l with
  | nil => intro acc; simp [team_counts_loop]
  | cons p rest ih =>
      intro acc
      cases hteam : p.2.team with
      | none => simp [team_counts_loop, hteam]
      | some t => simp [team_counts_loop, hteam, ih]

theorem team_counts_loop_lookup :
    ∀ (l : List (Nat × PlayerStatus)) (acc counts : List (Int × Nat)),
    team_counts_loop l acc = some counts → ∀ t : Int,
    (counts.lookup t).getD 0 =
      ((acc.lookup t).getD 0) +
        (l.filterMap (fun p => p.2.team)).count t := by
  intro l
  induction l with
  | nil =>
      intro acc counts h t
      simp [team_counts_loop] at h
      subst h
      simp
  | cons p rest ih =>
      intro acc counts h t
      cases hteam : p.2.team with
      | none => simp [team_counts_loop, hteam] at h
      | some tt =>
          simp only [team_counts_loop, hteam] at h
          have hrec := ih (team_counts_incr acc tt) counts h t
          rw [hrec]
          rw [List.filterMap_cons]
          simp only [hteam, List.count_cons]
          by_cases hEq : t = tt
          · subst hEq
            rw [team_counts_incr_lookup_self]
            simp
            omega
          · rw [team_counts_incr_lookup_other acc tt t hEq]
            have hb : (tt == t) = false :=
              beq_eq_false_iff_ne.2 (fun hc => hEq hc.symm)
            simp [hb]

theorem team_counts_loop_keys :
    ∀ (l : List (Nat × PlayerStatus)) (acc counts : List (Int × Nat)),
    team_counts_loop l acc = some counts → ∀ t : Int,
    (t ∈ counts.map Prod.fst ↔
      t ∈ acc.map Prod.fst ∨
        t ∈ l.filterMap (fun p => p.2.team)) := by
  intro l
  induction l with
  | nil =>
      intro acc counts h t
      simp [team_counts_loop] at h
      subst h
      simp
  | cons p rest ih =>
      intro acc counts h t
      cases hteam : p.2.team with
      | none => simp [team_counts_loop, hteam] at h
      | some tt =>
          simp only [team_counts_loop, hteam] at h
          have hrec := ih (team_counts_incr acc tt) counts h t
          rw [List.filterMap_cons]
          simp only [hteam]
          rw [hrec, team_counts_incr_keys]
          simp [List.mem_cons]
          tauto

theorem team_counts_loop_nodup :
    ∀ (l : List (Nat × PlayerStatus)) (acc counts : List (Int × Nat)),
    team_counts_loop l acc = some counts →
    (acc.map Prod.fst).Nodup → (counts.map Prod.fst).Nodup := by
  intro l
  induction l with
  | nil =>
      intro acc counts h hnd
      simp [team_counts_loop] at h
      subst h
      exact hnd
  | cons p rest ih =>
      intro acc counts h hnd
      cases hteam : p.2.team with
      | none => simp [team_counts_loop, hteam] at h
      | some tt =>
          simp only [team_counts_loop, hteam] at h
          exact ih (team_counts_incr acc tt) counts h
            (team_counts_incr_nodup acc tt hnd)

theorem team_counts_values_are_counts (players : List (Nat × PlayerStatus))
    (counts : List (Int × Nat))
    (hloop : team_counts_loop players [] = some counts) :
    ∀ v ∈ counts.map Prod.snd,
      ∃ t ∈ players.filterMap (fun p => p.2.team),
        v = (players.filterMap (fun p => p.2.team)).count t := by
  intro v hv
  rcases List.mem_map.1 hv with ⟨⟨k, v'⟩, hmem, hv'⟩
  have hnd := team_counts_loop_nodup players [] counts hloop (by simp)
  have hlk : counts.lookup k = some v' := nodup_keys_lookup_self hnd hmem
  have hkeys := (team_counts_loop_keys players [] counts hloop k).1
    (List.mem_map_of_mem Prod.fst hmem)
  have hk2 : k ∈ players.filterMap (fun p => p.2.team) := by
    simpa using hkeys
  have hcount := team_counts_loop_lookup players [] counts hloop k
  rw [hlk] at hcount
  simp at hcount
  exact ⟨k, hk2, by rw [← hv']; exact hcount⟩

theorem team_counts_count_mem_values (players : List (Nat × PlayerStatus))
    (counts : List (Int × Nat))
    (hloop : team_counts_loop players [] = some counts) :
    ∀ t ∈ players.filterMap (fun p => p.2.team),
      (players.filterMap (fun p => p.2.team)).count t ∈
        counts.map Prod.snd := by
  intro t ht
  have hkeys := (team_counts_loop_keys players [] counts hloop t).2
    (Or.inr ht)
  cases hlk : counts.lookup t with
  | none => exact absurd hkeys ((lookup_eq_none_iff counts t).1 hlk)
  | some v =>
      have hcount := team_counts_loop_lookup players [] counts hloop t
      rw [hlk] at hcount
      simp at hcount
      rw [← hcount]
      exact List.mem_map_of_mem Prod.snd (lookup_mem hlk)

theorem dedup_length_le_one_iff (xs : List Nat) :
    xs.dedup.length ≤ 1 ↔ ∀ a ∈ xs, ∀ b ∈ xs, a = b := by
  constructor
  · intro h a ha b hb
    have ha' : a ∈ xs.dedup := List.mem_dedup.2 ha
    have hb' : b ∈ xs.dedup := List.mem_dedup.2 hb
    cases hd : xs.dedup with
    | nil =>
        rw [hd] at ha'
        cases ha'
    | cons x t =>
        rw [hd] at ha' hb' h
        cases t with
        | nil =>
            simp at ha' hb'
            rw [ha', hb']
        | cons y t2 => simp at h
  · intro h
    cases hd : xs.dedup with
    | nil => simp
    | cons x t =>
        cases t with
        | nil => simp
        | cons y t2 =>
            exfalso
            have hnd := List.nodup_dedup xs
            rw [hd] at hnd
            have hx : x ∈ xs := List.mem_dedup.1 (by rw [hd]; simp)
            have hy : y ∈ xs := List.mem_dedup.1 (by rw [hd]; simp)
            have hxy : x = y := h x hx y hy
            simp [List.nodup_cons, hxy] at hnd

theorem counts_balanced_iff (players : List (Nat × PlayerStatus))
    (counts : List (Int × Nat))
    (hloop : team_counts_loop players [] = some counts) :
    (counts.map Prod.snd).dedup.length ≤ 1 ↔
      (∀ t1 ∈ players.filterMap (fun p => p.2.team),
       ∀ t2 ∈ players.filterMap (fun p => p.2.team),
        (players.filterMap (fun p => p.2.team)).count t1 =
          (players.filterMap (fun p => p.2.team)).count t2) := by
  rw [dedup_length_le_one_iff]
  constructor
  · intro h t1 ht1 t2 ht2
    exact h _ (team_counts_count_mem_values players counts hloop t1 ht1)
      _ (team_counts_count_mem_values players counts hloop t2 ht2)
  · intro h v1 hv1 v2 hv2
    rcases team_counts_values_are_counts players counts hloop v1 hv1 with
      ⟨t1, ht1, e1⟩
    rcases team_counts_values_are_counts players counts hloop v2 hv2 with
      ⟨t2, ht2, e2⟩
    rw [e1, e2]
    exact h t1 ht1 t2 ht2

theorem check_game_ready_true_iff (e : GameEntry) :
    (check_game_ready (some e)).1 = true ↔ ready_spec e := by
  unfold check_game_ready ready_spec assigned_teams
  dsimp only
  by_cases hst : e.status.state ≠ GameState.WAITING
  · rw [if_pos hst]
    constructor
    · intro h
      simp at h
    · intro hc
      exact absurd hc.1 hst
  · rw [if_neg hst]
    have hw := not_not.1 hst
    by_cases hemp : e.players = []
    · rw [if_pos hemp]
      constructor
      · intro h
        simp at h
      · intro hc
        exact absurd hemp hc.2.1
    · rw [if_neg hemp]
      cases hfind : e.players.find? (fun p => !p.2.ready) with
      | some q =>
          constructor
          · intro h
            simp at h
          · intro hc
            have hq1 : q ∈ e.players := List.mem_of_find?_eq_some hfind
            have hq2 := List.find?_some hfind
            have := hc.2.2.1 q hq1
            simp [this] at hq2
      | none =>
          have hall : ∀ p ∈ e.players, p.2.ready = true := by
            intro p hp
            have := List.find?_eq_none.1 hfind p hp
            simpa using this
          by_cases htg : e.status.team_game = true
          · rw [if_pos htg]
            cases hloop : team_counts_loop e.players [] with
            | none =>
                rcases (team_counts_loop_none_iff e.players []).1 hloop with
                  ⟨p, hp, hteam⟩
                constructor
                · intro h
                  simp at h
                · intro hc
                  exact absurd hteam ((hc.2.2.2 htg).1 p hp)
            | some counts =>
                dsimp only
                by_cases hbal : (counts.map Prod.snd).dedup.length > 1
                · rw [if_pos hbal]
                  constructor
                  · intro h
                    simp at h
                  · intro hc
                    have hbal2 := (counts_balanced_iff e.players counts
                      hloop).2 (hc.2.2.2 htg).2
                    omega
                · rw [if_neg hbal]
                  constructor
                  · intro _
                    refine ⟨hw, hemp, hall, fun _ => ⟨?_, ?_⟩⟩
                    · intro p hp hteam
                      have hcontra := (team_counts_loop_none_iff
                        e.players []).2 ⟨p, hp, hteam⟩
                      rw [hloop] at hcontra
                      simp at hcontra
                    · exact (counts_balanced_iff e.players counts hloop).1
                        (by omega)
                  · intro _
                    rfl
          · rw [if_neg htg]
            constructor
            · intro _
              exact ⟨hw, hemp, hall, fun hc => absurd hc htg⟩
            · intro _
              rfl

/-- C4: `start_game` succeeds exactly when the game is in `WAITING`, has at
least one player, every player is ready, and for a team game every player
has a team with all team sizes equal; on any failure the call is rejected
and the entry (in particular its state) is unchanged. -/
theorem claim_C4_start_game_readiness (e : GameEntry) (now : Int) :
    ((start_game (some e) now).2 = true ↔ ready_spec e) ∧
    ((start_game (some e) now).2 = false →
      (start_game (some e) now).1 = some e) := by
  unfold start_game
  dsimp only
  by_cases hst : e.status.state ≠ GameState.WAITING
  · rw [if_pos hst]
    constructor
    · constructor
      · intro h
        simp at h
      · intro hc
        exact absurd hc.1 hst
    · intro _
      rfl
  · rw [if_neg hst]
    by_cases hchk : (check_game_ready (some e)).1 = true
    · rw [if_pos hchk]
      constructor
      · simp only [true_iff]
        exact (check_game_ready_true_iff e).1 hchk
      · intro h
        simp at h
    · rw [if_neg hchk]
      constructor
      · constructor
        · intro h
          simp at h
        · intro hc
          exact absurd ((check_game_ready_true_iff e).2 hc) hchk
      · intro _
        rfl

/-- Witness for C4 at a concrete one-player game (not ready, so the start is
rejected and the entry unchanged). -/
theorem claim_C4_witness :
    ((start_game (some coordEntryC) 3).2 = true ↔ ready_spec coordEntryC) ∧
    ((start_game (some coordEntryC) 3).2 = false →
      (start_game (some coordEntryC) 3).1 = some coordEntryC) :=
  claim_C4_start_game_readiness coordEntryC 3

/- ------------------------- Claim C2 ---------------------------------- -/

/-- C2 counterexample: in a single-team ranked game the one team's place 0
is also the last place (`number_of_teams - 1 = 0`), yet the evaluated player
receives the winner branch — `wins = 1`, `points = 3`, `losses = 0` — where
the claim demands `losses += 1` and `points -= 1` for a team placed last. -/
theorem claim_C2_counterexample :
    (standingsOneTeam.teams.map
      (fun ts => (ts.getD 0 ⟨0⟩).place)) = some 0 ∧
    standingsOneTeam.number_of_teams - 1 = 0 ∧
    ((bungie_net_game_evaluate true RANKED_NORMAL 1 [playerFive]
        [some standingsOneTeam]).get? 0).map
      (fun p => (p.ranked_score.losses, p.ranked_score.wins,
        p.ranked_score.points)) = some (0, 1, 3) := by decide

theorem list_modify_eq_set (l : List BungieNetPlayerScoreDatum) (n : Nat)
    (f : BungieNetPlayerScoreDatum → BungieNetPlayerScoreDatum)
    (a : BungieNetPlayerScoreDatum) (h : l.get? n = some a) :
    list_modify l n f = l.set n (f a) := by
  unfold list_modify
  rw [h]

theorem score_row_win_base_eq (s : BungieNetPlayerScoreDatum)
    (kills lost : Int) :
    score_row_win (score_row_base s kills lost) =
      { s with
         games_played := s.games_played + 1,
         damage_inflicted := s.damage_inflicted + kills,
         damage_received := s.damage_received + lost,
         wins := s.wins + 1,
         points := s.points + 3,
         highest_points := max (s.points + 3) s.highest_points } := by
  unfold score_row_win score_row_base
  dsimp only
  by_cases h : s.points + 3 > s.highest_points
  · rw [if_pos h, max_eq_left (le_of_lt h)]
  · rw [if_neg h, max_eq_right (not_lt.1 h)]

theorem update_found_player_eq_claim (p : BungieNetPlayerDatum)
    (kills lost place nt : Int) (gt : Nat)
    (G : BungieNetPlayerScoreDatum)
    (hG : p.ranked_scores_by_game_type.get? gt = some G) :
    update_found_player p kills lost place nt gt =
      { p with
         ranked_score :=
           claim_score_row_update p.ranked_score kills lost place (nt - 1),
         ranked_scores_by_game_type :=
           p.ranked_scores_by_game_type.set gt
             (claim_score_row_update G kills lost place (nt - 1)) } := by
  have h2 : (p.ranked_scores_by_game_type.set gt
      (score_row_base G kills lost)).get? gt =
      some (score_row_base G kills lost) := by
    rw [List.get?_set_eq, hG]
    rfl
  unfold update_found_player claim_score_row_update
  rw [list_modify_eq_set _ _ _ _ hG]
  dsimp only
  rw [list_modify_eq_set _ _ _ _ h2, list_modify_eq_set _ _ _ _ h2]
  rw [List.set_set, List.set_set]
  by_cases hp0 : place = 0
  · simp only [if_pos hp0, score_row_win_base_eq]
  · by_cases hpl : place = nt - 1
    · simp only [if_neg hp0, if_pos hpl]
      rfl
    · simp only [if_neg hp0, if_neg hpl]
      rfl

theorem update_found_player_id (p : BungieNetPlayerDatum)
    (kills lost place nt : Int) (gt : Nat) :
    (update_found_player p kills lost place nt gt).player_id =
      p.player_id := by
  unfold update_found_player
  dsimp only
  split_ifs <;> rfl

theorem set_get?_self {α : Type} :
    ∀ (l : List α) (n : Nat) (a : α), l.get? n = some a → l.set n a = l := by
  intro l
  induction l with
  | nil => intro n a h; simp at h
  | cons x rest ih =>
      intro n a h
      cases n with
      | zero =>
          simp only [List.get?_cons_zero, Option.some.injEq] at h
          subst h
          rfl
      | succ m =>
          simp only [List.get?_cons_succ] at h
          show x :: rest.set m a = x :: rest
          rw [ih m a h]

theorem evaluate_step_map_id (ts : List StandingsTeam) (nt : Int)
    (gt pc : Nat) (sp : StandingsPlayer)
    (l : List BungieNetPlayerDatum) :
    (evaluate_step ts nt gt pc sp l).map (fun p => p.player_id) =
      l.map (fun p => p.player_id) := by
  unfold evaluate_step
  cases hf : find_player_struct_by_pid sp.bungie_net_player_id pc l with
  | none => rfl
  | some j =>
      dsimp only
      cases hg : l.get? j with
      | none => rfl
      | some p =>
          dsimp only
          rw [List.map_set, update_found_player_id]
          apply set_get?_self
          rw [List.get?_map, hg]
          rfl

theorem find_player_idx_loop_congr (pid : Int) :
    ∀ (l1 l2 : List BungieNetPlayerDatum) (i : Nat),
    l1.map (fun p => p.player_id) = l2.map (fun p => p.player_id) →
    find_player_idx_loop pid l1 i = find_player_idx_loop pid l2 i := by
  intro l1
  induction l1 with
  | nil =>
      intro l2 i h
      cases l2 with
      | nil => rfl
      | cons q rest2 => simp at h
  | cons p rest ih =>
      intro l2 i h
      cases l2 with
      | nil => simp at h
      | cons q rest2 =>
          simp only [List.map_cons, List.cons.injEq] at h
          unfold find_player_idx_loop
          rw [h.1]
          by_cases hp : q.player_id = pid
          · simp [hp]
          · simp [hp, ih rest2 (i + 1) h.2]

theorem find_player_struct_congr (pid : Int) (pc : Nat)
    (l1 l2 : List BungieNetPlayerDatum)
    (h : l1.map (fun p => p.player_id) = l2.map (fun p => p.player_id)) :
    find_player_struct_by_pid pid pc l1 =
      find_player_struct_by_pid pid pc l2 := by
  unfold find_player_struct_by_pid
  apply find_player_idx_loop_congr
  rw [List.map_take, List.map_take, h]

theorem find_player_idx_loop_spec (pid : Int) :
    ∀ (l : List BungieNetPlayerDatum) (i j : Nat),
    find_player_idx_loop pid l i = some j →
    i ≤ j ∧ ∃ p, l.get? (j - i) = some p ∧ p.player_id = pid := by
  intro l
  induction l with
  | nil => intro i j h; simp [find_player_idx_loop] at h
  | cons p rest ih =>
      intro i j h
      unfold find_player_idx_loop at h
      by_cases hp : p.player_id = pid
      · rw [if_pos hp] at h
        injection h with h
        subst h
        exact ⟨le_refl i, p, by simp, hp⟩
      · rw [if_neg hp] at h
        rcases ih (i + 1) j h with ⟨hle, q, hq, hqid⟩
        refine ⟨by omega, q, ?_, hqid⟩
        have hji : j - i = (j - (i + 1)) + 1 := by omega
        rw [hji]
        simpa using hq

theorem find_player_struct_spec (pid : Int) (pc : Nat)
    (l : List BungieNetPlayerDatum) (j : Nat)
    (h : find_player_struct_by_pid pid pc l = some j) :
    ∃ p, l.get? j = some p ∧ p.player_id = pid ∧ j < pc := by
  unfold find_player_struct_by_pid at h
  rcases find_player_idx_loop_spec pid (l.take pc) 0 j h with ⟨_, p, hp, hpid⟩
  simp only [Nat.sub_zero] at hp
  have hj : j < pc := by
    by_contra hge
    have hlen : (l.take pc).length ≤ j := by
      rw [List.length_take]
      omega
    rw [List.get?_eq_none.2 hlen] at hp
    cases hp
  refine ⟨p, ?_, hpid, hj⟩
  rw [← List.get?_take hj]
  exact hp

theorem evaluate_fold_skip (ts : List StandingsTeam) (nt : Int)
    (gt pc jdx : Nat) (targetPid : Int)
    (players0 : List BungieNetPlayerDatum) :
    ∀ (es : List StandingsPlayer) (acc : List BungieNetPlayerDatum)
    (pj : BungieNetPlayerDatum),
    pj.player_id = targetPid →
    (∀ sp' ∈ es, sp'.bungie_net_player_id ≠ targetPid) →
    acc.map (fun p => p.player_id) =
      players0.map (fun p => p.player_id) →
    acc.get? jdx = some pj →
    (es.foldl (fun a sp' => evaluate_step ts nt gt pc sp' a) acc).get? jdx =
        some pj ∧
    (es.foldl (fun a sp' => evaluate_step ts nt gt pc sp' a) acc).map
        (fun p => p.player_id) =
      players0.map (fun p => p.player_id) := by
  intro es
  induction es with
  | nil => intro acc pj hpjid _ hids hacc; exact ⟨hacc, hids⟩
  | cons sp' rest ih =>
      intro acc pj hpjid hne hids hacc
      rw [List.foldl_cons]
      have hstep : (evaluate_step ts nt gt pc sp' acc).get? jdx = some pj := by
        unfold evaluate_step
        cases hf : find_player_struct_by_pid sp'.bungie_net_player_id pc
            acc with
        | none => exact hacc
        | some j =>
            dsimp only
            cases hg : acc.get? j with
            | none => exact hacc
            | some p =>
                dsimp only
                rcases find_player_struct_spec _ _ _ _ hf with
                  ⟨q, hq, hqid, _⟩
                rw [hg] at hq
                injection hq with hq
                subst hq
                by_cases hjj : j = jdx
                · subst hjj
                  rw [hacc] at hg
                  injection hg with hg
                  exfalso
                  apply hne sp' (List.mem_cons_self _ _)
                  rw [← hqid, ← hg, hpjid]
                · rw [List.get?_set_ne _ _ hjj]
                  exact hacc
      exact ih (evaluate_step ts nt gt pc sp' acc) pj hpjid
        (fun q hq => hne q (List.mem_cons_of_mem _ hq))
        ((evaluate_step_map_id ts nt gt pc sp' acc).trans hids) hstep

theorem evaluate_step_hit (ts : List StandingsTeam) (nt : Int) (gt pc : Nat)
    (sp : StandingsPlayer) (l : List BungieNetPlayerDatum) (jdx : Nat)
    (pj : BungieNetPlayerDatum)
    (hf : find_player_struct_by_pid sp.bungie_net_player_id pc l = some jdx)
    (hl : l.get? jdx = some pj) :
    evaluate_step ts nt gt pc sp l =
      l.set jdx (update_found_player pj sp.points_killed sp.points_lost
        ((ts.getD sp.team_index ⟨0⟩).place) nt gt) := by
  unfold evaluate_step
  rw [hf]
  dsimp only
  rw [hl]

/-- C2 amended: when an authoritative standings report is applied for a
ranked (or unranked-as-ranked) game, the listed player found in the roster
has `games_played`, `damage_inflicted` and `damage_received` accumulated on
both the overall ranked row and the per-game-type row; a player whose team
placed 0 additionally gets `wins += 1`, `points += 3` and `highest_points`
refreshed when exceeded; a player whose team placed last — and not also
first — gets `losses += 1`, `points -= 1`; all other places change nothing
further (`claim_score_row_update` spells these field updates out). -/
theorem claim_C2_amended_score_application
    (game_classification : Int) (player_count : Nat)
    (players0 : List BungieNetPlayerDatum)
    (reported : List (Option BungieNetGameStandings))
    (st : BungieNetGameStandings) (ps : List StandingsPlayer)
    (ts : List StandingsTeam) (i jdx : Nat) (sp : StandingsPlayer)
    (pj : BungieNetPlayerDatum) (G : BungieNetPlayerScoreDatum)
    (hgood : find_good_standings_for_game player_count reported = some st)
    (hps : st.players = some ps)
    (hts : st.teams = some ts)
    (hclass : game_classification = RANKED_NORMAL ∨
      game_classification = UNRANKED_NORMAL)
    (hpc : player_count ≤ ps.length)
    (hi : i < player_count)
    (hsp : ps.get? i = some sp)
    (huniq : ∀ j, j < player_count → j ≠ i → ∀ sp', ps.get? j = some sp' →
      sp'.bungie_net_player_id ≠ sp.bungie_net_player_id)
    (hfind : find_player_struct_by_pid sp.bungie_net_player_id player_count
      players0 = some jdx)
    (hpj : players0.get? jdx = some pj)
    (_hteam : sp.team_index < ts.length)
    (hG : pj.ranked_scores_by_game_type.get? st.game_scoring = some G) :
    (bungie_net_game_evaluate true game_classification player_count players0
        reported).get? jdx =
      some { pj with
              ranked_score := claim_score_row_update pj.ranked_score
                sp.points_killed sp.points_lost
                ((ts.getD sp.team_index ⟨0⟩).place)
                (st.number_of_teams - 1),
              ranked_scores_by_game_type :=
                pj.ranked_scores_by_game_type.set st.game_scoring
                  (claim_score_row_update G sp.points_killed sp.points_lost
                    ((ts.getD sp.team_index ⟨0⟩).place)
                    (st.number_of_teams - 1)) } := by
  have heval : bungie_net_game_evaluate true game_classification
      player_count players0 reported =
      (ps.take player_count).foldl
        (fun acc sp' => evaluate_step ts st.number_of_teams st.game_scoring
          player_count sp' acc) players0 := by
    unfold bungie_net_game_evaluate
    rw [hgood]
    dsimp only
    rw [hps, hts]
    dsimp only
    rw [if_neg (by decide : ¬((!true : Bool) = true)), if_pos hclass]
  rw [heval]
  rcases find_player_struct_spec _ _ _ _ hfind with ⟨pj2, hpj2, hpjid2, hjlt⟩
  rw [hpj] at hpj2
  injection hpj2 with hpj2
  subst hpj2
  have hesget : (ps.take player_count).get? i = some sp := by
    rw [List.get?_take hi]
    exact hsp
  rcases List.get?_eq_some.1 hesget with ⟨hilen, hget⟩
  have hsplit : ps.take player_count =
      (ps.take player_count).take i ++
        sp :: (ps.take player_count).drop (i + 1) := by
    conv_lhs => rw [← List.take_append_drop i (ps.take player_count)]
    congr 1
    rw [List.drop_eq_get_cons hilen, hget]
  rw [hsplit, List.foldl_append, List.foldl_cons]
  have hprene : ∀ sp' ∈ (ps.take player_count).take i,
      sp'.bungie_net_player_id ≠ sp.bungie_net_player_id := by
    intro sp' hmem
    rcases List.mem_iff_get?.1 hmem with ⟨n, hn⟩
    have hnlt : n < i := by
      by_contra hge
      have hlen2 : ((ps.take player_count).take i).length ≤ n := by
        rw [List.length_take]
        omega
      rw [List.get?_eq_none.2 hlen2] at hn
      cases hn
    have hes_n : (ps.take player_count).get? n = some sp' := by
      rw [← List.get?_take hnlt]
      exact hn
    have hps_n : ps.get? n = some sp' := by
      rw [← List.get?_take (show n < player_count by omega)]
      exact hes_n
    exact huniq n (by omega) (by omega) sp' hps_n
  have pre := evaluate_fold_skip ts st.number_of_teams st.game_scoring
    player_count jdx sp.bungie_net_player_id players0
    ((ps.take player_count).take i) players0 pj hpjid2 hprene rfl hpj
  have hfind1 : find_player_struct_by_pid sp.bungie_net_player_id
      player_count
      (((ps.take player_count).take i).foldl
        (fun acc sp' => evaluate_step ts st.number_of_teams st.game_scoring
          player_count sp' acc) players0) = some jdx := by
    exact (find_player_struct_congr _ _ _ players0 pre.2).trans hfind
  have hstep : evaluate_step ts st.number_of_teams st.game_scoring
      player_count sp
      (((ps.take player_count).take i).foldl
        (fun acc sp' => evaluate_step ts st.number_of_teams st.game_scoring
          player_count sp' acc) players0) =
      (((ps.take player_count).take i).foldl
        (fun acc sp' => evaluate_step ts st.number_of_teams st.game_scoring
          player_count sp' acc) players0).set jdx
        (update_found_player pj sp.points_killed sp.points_lost
          ((ts.getD sp.team_index ⟨0⟩).place) st.number_of_teams
          st.game_scoring) :=
    evaluate_step_hit ts st.number_of_teams st.game_scoring player_count sp
      _ jdx pj hfind1 pre.1
  rw [hstep]
  have hupdid : (update_found_player pj sp.points_killed sp.points_lost
      ((ts.getD sp.team_index ⟨0⟩).place) st.number_of_teams
      st.game_scoring).player_id = sp.bungie_net_player_id := by
    rw [update_found_player_id]
    exact hpjid2
  have hacc2 : ((((ps.take player_count).take i).foldl
      (fun acc sp' => evaluate_step ts st.number_of_teams st.game_scoring
        player_count sp' acc) players0).set jdx
      (update_found_player pj sp.points_killed sp.points_lost
        ((ts.getD sp.team_index ⟨0⟩).place) st.number_of_teams
        st.game_scoring)).get? jdx =
      some (update_found_player pj sp.points_killed sp.points_lost
        ((ts.getD sp.team_index ⟨0⟩).place) st.number_of_teams
        st.game_scoring) := by
    rw [List.get?_set_eq, pre.1]
    rfl
  have hids2 : ((((ps.take player_count).take i).foldl
      (fun acc sp' => evaluate_step ts st.number_of_teams st.game_scoring
        player_count sp' acc) players0).set jdx
      (update_found_player pj sp.points_killed sp.points_lost
        ((ts.getD sp.team_index ⟨0⟩).place) st.number_of_teams
        st.game_scoring)).map (fun p => p.player_id) =
      players0.map (fun p => p.player_id) := by
    rw [← hstep, evaluate_step_map_id]
    exact pre.2
  have hpostne : ∀ sp' ∈ (ps.take player_count).drop (i + 1),
      sp'.bungie_net_player_id ≠ sp.bungie_net_player_id := by
    intro sp' hmem
    rcases List.mem_iff_get?.1 hmem with ⟨n, hn⟩
    rw [List.get?_drop] at hn
    have hlt : i + 1 + n < player_count := by
      by_contra hge
      have hlen2 : (ps.take player_count).length ≤ i + 1 + n := by
        rw [List.length_take]
        omega
      rw [List.get?_eq_none.2 hlen2] at hn
      cases hn
    have hps_n : ps.get? (i + 1 + n) = some sp' := by
      rw [← List.get?_take hlt]
      exact hn
    exact huniq (i + 1 + n) hlt (by omega) sp' hps_n
  have post := evaluate_fold_skip ts st.number_of_teams st.game_scoring
    player_count jdx sp.bungie_net_player_id players0
    ((ps.take player_count).drop (i + 1)) _
    (update_found_player pj sp.points_killed sp.points_lost
      ((ts.getD sp.team_index ⟨0⟩).place) st.number_of_teams
      st.game_scoring) hupdid hpostne hids2 hacc2
  rw [post.1]
  rw [update_found_player_eq_claim pj sp.points_killed sp.points_lost
    ((ts.getD sp.team_index ⟨0⟩).place) st.number_of_teams st.game_scoring
    G hG]

/-- Witness for the amended C2: the two-team game of `standingsTwoTeams`
applied to player 5, whose team placed 0. -/
theorem claim_C2_amended_witness :
    (find_good_standings_for_game 2
        [some standingsTwoTeams, some standingsTwoTeams] =
      some standingsTwoTeams ∧
     find_player_struct_by_pid 5 2 [playerFive, playerSix] = some 0) ∧
    (bungie_net_game_evaluate true 1 2 [playerFive, playerSix]
        [some standingsTwoTeams, some standingsTwoTeams]).get? 0 =
      some { playerFive with
              ranked_score :=
                claim_score_row_update playerFive.ranked_score 2 1 0 1,
              ranked_scores_by_game_type :=
                playerFive.ranked_scores_by_game_type.set 0
                  (claim_score_row_update {} 2 1 0 1) } :=
  ⟨⟨rfl, rfl⟩,
    claim_C2_amended_score_application 1 2 [playerFive, playerSix]
      [some standingsTwoTeams, some standingsTwoTeams] standingsTwoTeams
      [{ bungie_net_player_id := 5, team_index := 0, points_killed := 2,
         points_lost := 1 },
       { bungie_net_player_id := 6, team_index := 1, points_killed := 0,
         points_lost := 3 }]
      [{ place := 0 }, { place := 1 }] 0 0
      { bungie_net_player_id := 5, team_index := 0, points_killed := 2,
        points_lost := 1 }
      playerFive {} rfl rfl rfl (Or.inl rfl) (by decide) (by decide) rfl
      (by
        intro j hj hjne sp' hget
        have hj1 : j = 1 := by omega
        subst hj1
        injection hget with hget
        rw [← hget]
        decide)
      rfl rfl (by decide) rfl⟩
